import Mathlib

/-!
Verification development for the design2wp-gutenberg layout-to-markup compiler.

The Python sources (converter.py, gutenberg_blocks.py, kadence_blocks.py,
page_builder.py) are shallowly embedded below.  Python dict-shaped inputs are
modelled by records whose fields are exactly the keys the code reads; an
absent key is `none`.  Python string values spliced into style/attribute
positions may in principle be any JSON value, so those fields are modelled by
the JSON value type `PyVal`; identity-like fields (type tags, text, urls,
alignment keywords) are modelled as `Option String`.  Fallible dict indexing
(`d["k"]`) is modelled in `Except PyErr`.
-/

set_option maxHeartbeats 1000000

/-- Python exceptions raised by the embedded code. -/
inductive PyErr where
  | keyError (k : String)
  | valueError (s : String)
deriving DecidableEq

/-- JSON-like Python values, as they occur in this code base.  `num100 k`
models the Python float `k / 100` (the only floats the sources create are
`overlay_opacity / 100` divisions); its serialization below renders the exact
two-decimal form, matching CPython `repr` for the magnitudes that occur. -/
inductive PyVal where
  | str (s : String)
  | int (n : Int)
  | bool (b : Bool)
  | num100 (k : Int)
  | dict (fields : List (String × PyVal))
  | arr (xs : List PyVal)

/-- Python truthiness of a value. -/
def pvTruthy : PyVal → Bool
  | .str s => s ≠ ""
  | .int n => n ≠ 0
  | .bool b => b
  | .num100 k => k ≠ 0
  | .dict fs => !fs.isEmpty
  | .arr xs => !xs.isEmpty

/-- Truthiness of an optional value (absent ⇒ `None` ⇒ falsy). -/
def opvTruthy (o : Option PyVal) : Bool := (o.map pvTruthy).getD false

/-- Truthiness of an optional string (`None` and `""` are falsy). -/
def osTruthy (o : Option String) : Bool := o.getD "" ≠ ""

/-- Truthiness of an optional int (`None` and `0` are falsy). -/
def oiTruthy (o : Option Int) : Bool := o.getD 0 ≠ 0

/-- Python `a or b` on optional strings. -/
def pyOrS (a b : Option String) : Option String := if osTruthy a then a else b

/-- Python `a or b` on optional JSON values. -/
def pyOrV (a b : Option PyVal) : Option PyVal := if opvTruthy a then a else b

/-- Decimal rendering of the Python float `k / 100` (CPython shortest
round-trip repr: `50/100 ↦ "0.5"`, `55/100 ↦ "0.55"`, `200/100 ↦ "2.0"`). -/
def num100Repr (k : Int) : String :=
  let sign := if k < 0 then "-" else ""
  let a := k.natAbs
  let q := a / 100
  let r := a % 100
  sign ++
    (if r = 0 then toString q ++ ".0"
     else if r % 10 = 0 then toString q ++ "." ++ toString (r / 10)
     else if r < 10 then toString q ++ ".0" ++ toString r
     else toString q ++ "." ++ toString r)

/-- Approximation of Python `repr` for strings (single-quoted); only reachable
if a container-valued style field is spliced into an f-string, which no claim
exercises. -/
def pyReprStr (s : String) : String :=
  "'" ++ String.join (s.toList.map (fun c =>
    if c = '\\' then "\\\\" else if c = '\'' then "\\'"
    else if c = '\n' then "\\n" else String.singleton c)) ++ "'"

mutual

/-- Python `str()` of a value, as used by f-string splicing. -/
def pyStr : PyVal → String
  | .str s => s
  | .int n => toString n
  | .bool b => cond b "True" "False"
  | .num100 k => num100Repr k
  | .dict fs => "\x7b" ++ pyStrFields fs ++ "\x7d"
  | .arr xs => "[" ++ pyStrArr xs ++ "]"

/-- Helper of `pyStr` for dict entries. -/
def pyStrFields : List (String × PyVal) → String
  | [] => ""
  | [(k, v)] => pyReprStr k ++ ": " ++ pyRepr v
  | (k, v) :: rest => pyReprStr k ++ ": " ++ pyRepr v ++ ", " ++ pyStrFields rest

/-- Helper of `pyStr` for list entries. -/
def pyStrArr : List PyVal → String
  | [] => ""
  | [v] => pyRepr v
  | v :: rest => pyRepr v ++ ", " ++ pyStrArr rest

/-- Python `repr()` of a value (strings get quoted). -/
def pyRepr : PyVal → String
  | .str s => pyReprStr s
  | v => pyStr v

end

/-- Hex digit (lower case), as used by JSON `\uXXXX` escapes. -/
def hexDigit (n : Nat) : Char :=
  (("0123456789abcdef".toList).getD n '0')

/-- Four-digit lower-case hex rendering of `n < 0x10000`. -/
def hex4 (n : Nat) : String :=
  String.mk [hexDigit (n / 4096 % 16), hexDigit (n / 256 % 16),
             hexDigit (n / 16 % 16), hexDigit (n % 16)]

/-- JSON escape of one character, per CPython `json.dumps`: `"`, `\` and
control characters are always escaped; with `ensure_ascii` every character
outside `0x20..0x7e` becomes `\uXXXX` (surrogate pairs above `0xFFFF`). -/
def jsonEscChar (ensureAscii : Bool) (c : Char) : String :=
  if c = '"' then "\\\""
  else if c = '\\' then "\\\\"
  else if c = '\n' then "\\n"
  else if c = '\r' then "\\r"
  else if c = '\t' then "\\t"
  else if c.toNat = 8 then "\\b"
  else if c.toNat = 12 then "\\f"
  else if c.toNat < 32 then "\\u" ++ hex4 c.toNat
  else if ensureAscii ∧ c.toNat > 126 then
    if c.toNat < 65536 then "\\u" ++ hex4 c.toNat
    else
      let n := c.toNat - 65536
      "\\u" ++ hex4 (55296 + n / 1024) ++ "\\u" ++ hex4 (56320 + n % 1024)
  else String.singleton c

/-- JSON string literal, per CPython `json.dumps`. -/
def jsonQuote (ensureAscii : Bool) (s : String) : String :=
  "\"" ++ String.join (s.toList.map (jsonEscChar ensureAscii)) ++ "\""

mutual

/-- CPython `json.dumps` with item separator `isep` and key separator `ksep`.
`converter._J` uses `(ensureAscii := true, isep := ",", ksep := ":")`;
`kadence_blocks._attrs` uses `(false, ",", ":")`; `gutenberg_blocks._attrs`
uses `(false, ", ", ": ")`. -/
def jsonDump (ensureAscii : Bool) (isep ksep : String) : PyVal → String
  | .str s => jsonQuote ensureAscii s
  | .int n => toString n
  | .bool b => cond b "true" "false"
  | .num100 k => num100Repr k
  | .dict fs => "\x7b" ++ jsonDumpFields ensureAscii isep ksep fs ++ "\x7d"
  | .arr xs => "[" ++ jsonDumpArr ensureAscii isep ksep xs ++ "]"

/-- Helper of `jsonDump` for dict entries (insertion order preserved). -/
def jsonDumpFields (ensureAscii : Bool) (isep ksep : String) :
    List (String × PyVal) → String
  | [] => ""
  | [(k, v)] => jsonQuote ensureAscii k ++ ksep ++ jsonDump ensureAscii isep ksep v
  | (k, v) :: rest =>
      jsonQuote ensureAscii k ++ ksep ++ jsonDump ensureAscii isep ksep v ++ isep ++
        jsonDumpFields ensureAscii isep ksep rest

/-- Helper of `jsonDump` for array entries. -/
def jsonDumpArr (ensureAscii : Bool) (isep ksep : String) : List PyVal → String
  | [] => ""
  | [v] => jsonDump ensureAscii isep ksep v
  | v :: rest => jsonDump ensureAscii isep ksep v ++ isep ++ jsonDumpArr ensureAscii isep ksep rest

end

/-- Python `html.escape` (with quotes), applied character-wise; equivalent to
the ordered `str.replace` chain because `&` is replaced first. -/
def htmlEscape (s : String) : String :=
  String.join (s.toList.map (fun c =>
    if c = '&' then "&amp;"
    else if c = '<' then "&lt;"
    else if c = '>' then "&gt;"
    else if c = '"' then "&quot;"
    else if c = '\'' then "&#x27;"
    else String.singleton c))

/-!  ## Data model

Records mirror the dict keys read by the sources.  `Pad` models a CSS padding
dict (ordered keys, as Python dicts preserve insertion order). -/

/-- Ordered key/value mapping, modelling a Python dict of CSS sides. -/
abbrev Pad := List (String × PyVal)

/-- Lookup in an ordered mapping (`d.get(k)`). -/
def dget (p : Pad) (k : String) : Option PyVal :=
  (p.find? (fun kv => kv.1 = k)).map (·.2)

/-- `k in d` on an ordered mapping. -/
def dhas (p : Pad) (k : String) : Bool := (p.find? (fun kv => kv.1 = k)).isSome

/-- Dict update `d[k] = v`: overwrite in place if present, else append. -/
def dset (p : Pad) (k : String) (v : PyVal) : Pad :=
  if dhas p k then p.map (fun kv => if kv.1 = k then (k, v) else kv)
  else p ++ [(k, v)]

/-- One button dict inside a `buttons` content item. -/
structure Btn where
  text : Option String := none
  url : Option String := none
  bg_color : Option PyVal := none
  text_color : Option PyVal := none
  style : Option String := none
  border_radius : Option PyVal := none

/-- One form field dict inside a `form` content item. -/
structure FormField where
  label : Option String := none
  type : Option String := none
  required : Option Bool := none

/-- One image dict (section `images` lists and nested `image-gallery` items). -/
structure ImgSpec where
  url : Option String := none
  description : Option String := none
  caption_title : Option String := none
  caption_meta : Option String := none
  alt : Option String := none
  width : Option Int := none
  height : Option Int := none

/-- The non-recursive fields of a content item. -/
structure ItemFields where
  type : Option String := none
  text : Option String := none
  level : Option Int := none
  color : Option PyVal := none
  font_size : Option PyVal := none
  align : Option String := none
  url : Option String := none
  alt : Option String := none
  width : Option Int := none
  height : Option Int := none
  btnItems : List Btn := []
  strItems : List String := []
  ordered : Option Bool := none
  citation : Option String := none
  font_weight : Option PyVal := none
  formFields : List FormField := []
  images : List ImgSpec := []
  columns : Option Int := none

/-- A content item.  The `items` key of a `columns` item (a list of dicts each
read only through `.get("content", [])`) is modelled by `colItems`, the list
of those content lists; the `items` key of `buttons`/`list`/`icon_list` items
is in `ItemFields` (`btnItems`/`strItems`), since its JSON shape is fixed by
the `type` tag. -/
inductive ContentItem where
  | mk (f : ItemFields) (colItems : List (List ContentItem))

/-- Scalar fields of a content item. -/
def ContentItem.f : ContentItem → ItemFields
  | .mk f _ => f

/-- Column sub-items of a `columns` content item. -/
def ContentItem.colItems : ContentItem → List (List ContentItem)
  | .mk _ c => c

/-- A section's `background` object. -/
structure Background where
  type : Option String := none
  value : Option String := none
  url : Option String := none
  overlay_opacity : Option Int := none
  overlay_color : Option String := none

/-- A card's `card_style` object. -/
structure CardStyle where
  background_color : Option PyVal := none
  border_color : Option PyVal := none
  border_width : Option PyVal := none
  text_color : Option PyVal := none
  padding : Option Pad := none
  border_radius : Option PyVal := none

/-- One entry of a section's `items` list (a column/card). -/
structure SectionItem where
  content : List ContentItem := []
  card_style : Option CardStyle := none
  background_color : Option PyVal := none
  border_color : Option PyVal := none
  border_width : Option PyVal := none
  text_color : Option PyVal := none
  padding : Option Pad := none
  border_radius : Option PyVal := none
  align : Option String := none

/-- A section's `layout` object. -/
structure LayoutSpec where
  columns : Option Int := none

/-- A section's `styling` object. -/
structure Styling where
  padding : Option Pad := none
  card_border_radius : Option PyVal := none

/-- A section of a layout document. -/
structure Sect where
  type : Option String := none
  background : Option Background := none
  background_color : Option PyVal := none
  padding : Option Pad := none
  min_height : Option Int := none
  align : Option String := none
  content : List ContentItem := []
  items : List SectionItem := []
  images : List ImgSpec := []
  layout : Option LayoutSpec := none
  styling : Option Styling := none
  columns : Option Int := none
  text : Option String := none
  citation : Option String := none
  media_description : Option String := none
  media_position : Option String := none
  address : Option String := none

/-- A layout document. -/
structure Layout where
  sections : List Sect := []

/-- One uploaded-image record handed to `build_page_content`. -/
structure UploadedImg where
  filename : Option String := none
  original_index : Option Int := none
  url : Option String := none
  id : Option Int := none

/-- Internal image dicts handed to `converter._gallery` (always constructed
with exactly the keys `alt`, `url`, `caption`). -/
structure GalleryImage where
  alt : String := ""
  url : Option String := none
  caption : String := ""

/-!  ## converter.py — the core-blocks dialect -/

namespace Converter

/-- `converter._J`: `json.dumps(d, separators=(',', ':'))` (ensure_ascii). -/
def J (v : PyVal) : String := jsonDump true "," ":" v

/-- `dict.setdefault(k1, {})[k2] = v` on an attrs/style dict; in the sources
`k1` is only ever created as a dict, so the non-dict case is unreachable. -/
def dsetIn (d : List (String × PyVal)) (k1 k2 : String) (v : PyVal) :
    List (String × PyVal) :=
  match dget d k1 with
  | some (.dict sub) => dset d k1 (.dict (dset sub k2 v))
  | _ => dset d k1 (.dict [(k2, v)])

/-- Truthiness of an optional padding dict. -/
def padTruthy (o : Option Pad) : Bool := (o.map (fun p => !p.isEmpty)).getD false

/-- Python `a or b` on optional padding dicts. -/
def pyOrP (a b : Option Pad) : Option Pad := if padTruthy a then a else b

/-- `converter._placeholder_svg`. -/
def placeholderSvg (desc : String) (w h : Int) : String :=
  let t := ((desc.replace "'" "").replace "&" "and").take 60
  "data:image/svg+xml,%3Csvg xmlns='http://www.w3.org/2000/svg' " ++
    "width='" ++ toString w ++ "' height='" ++ toString h ++ "'%3E%3Crect fill='%23ccc' width='" ++
    toString w ++ "' height='" ++ toString h ++ "'/%3E%3Ctext x='50%25' y='50%25' text-anchor='middle' " ++
    "fill='%23666' font-size='20'%3E" ++ t ++ "%3C/text%3E%3C/svg%3E"

/-- `converter._build_css`, as the list of `;`-joined declarations (the Python
builds the same list in `parts`).  Argument order follows the keyword order of
the source: border_color, border_width, border_radius, color,
background_color, min_height, padding, font_size. -/
def buildCssParts (border_color border_width border_radius color
    background_color min_height : Option PyVal) (padding : Option Pad)
    (font_size : Option PyVal) : List String :=
  let parts : List String := []
  let parts := if opvTruthy border_color then
    parts ++ ["border-color:" ++ pyStr (border_color.getD (.str ""))] else parts
  let parts := if opvTruthy border_width then
    parts ++ ["border-width:" ++ pyStr (border_width.getD (.str ""))] else parts
  let parts := if opvTruthy border_radius then
    parts ++ ["border-radius:" ++ pyStr (border_radius.getD (.str ""))] else parts
  let parts := if opvTruthy color then
    parts ++ ["color:" ++ pyStr (color.getD (.str ""))] else parts
  let parts := if opvTruthy background_color then
    parts ++ ["background-color:" ++ pyStr (background_color.getD (.str ""))] else parts
  let parts := if opvTruthy min_height then
    parts ++ ["min-height:" ++ pyStr (min_height.getD (.str ""))] else parts
  let parts := if padTruthy padding then
    (["top", "right", "bottom", "left"].foldl (fun acc side =>
      if dhas (padding.getD []) side then
        acc ++ ["padding-" ++ side ++ ":" ++ pyStr ((dget (padding.getD []) side).getD (.str ""))]
      else acc) parts)
    else parts
  let parts := if opvTruthy font_size then
    parts ++ ["font-size:" ++ pyStr (font_size.getD (.str ""))] else parts
  parts

/-- `converter._build_css` (the joined CSS string). -/
def buildCss (border_color border_width border_radius color
    background_color min_height : Option PyVal) (padding : Option Pad)
    (font_size : Option PyVal) : String :=
  String.intercalate ";" (buildCssParts border_color border_width border_radius
    color background_color min_height padding font_size)

/-- The class list computed in `converter._heading` (lines 72–76). -/
def headingClasses (color : Option PyVal) (align : Option String) : List String :=
  let classes := ["wp-block-heading"]
  let classes := if opvTruthy color then classes ++ ["has-text-color"] else classes
  let classes := if osTruthy align then
    classes ++ ["has-text-align-" ++ align.getD ""] else classes
  classes

/-- `converter._heading`.  Python default arguments are applied at call
sites. -/
def heading (text : String) (level : Int) (color font_size : Option PyVal)
    (align : Option String) : String :=
  let style : List (String × PyVal) := []
  let style := if opvTruthy color then dsetIn style "color" "text" (color.getD (.str "")) else style
  let style := if opvTruthy font_size then
    dsetIn style "typography" "fontSize" (font_size.getD (.str "")) else style
  let attrs : List (String × PyVal) := []
  let attrs := if osTruthy align then dset attrs "textAlign" (.str (align.getD "")) else attrs
  let attrs := if level ≠ 2 then dset attrs "level" (.int level) else attrs
  let attrs := if !style.isEmpty then dset attrs "style" (.dict style) else attrs
  let tag := "h" ++ toString level
  let classes := headingClasses color align
  let css := buildCss none none none color none none none font_size
  let style_attr := if css ≠ "" then " style=\"" ++ css ++ "\"" else ""
  let class_attr := " class=\"" ++ String.intercalate " " classes ++ "\""
  "<!-- wp:heading " ++ J (.dict attrs) ++ " -->\n" ++
    "<" ++ tag ++ class_attr ++ style_attr ++ ">" ++ text ++ "</" ++ tag ++ ">\n" ++
    "<!-- /wp:heading -->"

/-- The class list computed in `converter._paragraph` (lines 103–107):
alignment class first, then text-color class. -/
def paragraphClasses (color : Option PyVal) (align : Option String) : List String :=
  let classes : List String := []
  let classes := if osTruthy align then
    classes ++ ["has-text-align-" ++ align.getD ""] else classes
  let classes := if opvTruthy color then classes ++ ["has-text-color"] else classes
  classes

/-- `converter._paragraph`. -/
def paragraph (text : String) (color font_size : Option PyVal)
    (align : Option String) : String :=
  let style : List (String × PyVal) := []
  let style := if opvTruthy color then dsetIn style "color" "text" (color.getD (.str "")) else style
  let style := if opvTruthy font_size then
    dsetIn style "typography" "fontSize" (font_size.getD (.str "")) else style
  let attrs : List (String × PyVal) := []
  let attrs := if osTruthy align then dset attrs "align" (.str (align.getD "")) else attrs
  let attrs := if !style.isEmpty then dset attrs "style" (.dict style) else attrs
  let classes := paragraphClasses color align
  let css := buildCss none none none color none none none font_size
  let style_attr := if css ≠ "" then " style=\"" ++ css ++ "\"" else ""
  let class_attr := if !classes.isEmpty then
    " class=\"" ++ String.intercalate " " classes ++ "\"" else ""
  let html_text := text.replace "\n" "<br>"
  let attr_str := if !attrs.isEmpty then " " ++ J (.dict attrs) else ""
  "<!-- wp:paragraph" ++ attr_str ++ " -->\n" ++
    "<p" ++ class_attr ++ style_attr ++ ">" ++ html_text ++ "</p>\n" ++
    "<!-- /wp:paragraph -->"

/-- `converter._image`. -/
def image (url : Option String) (alt : String) (width height : Int) : String :=
  let src := if osTruthy url then url.getD ""
    else placeholderSvg (if alt ≠ "" then alt else "Bilde") width height
  let attrs : List (String × PyVal) := [("sizeSlug", .str "large")]
  "<!-- wp:image " ++ J (.dict attrs) ++ " -->\n" ++
    "<figure class=\"wp-block-image size-large\">" ++
    "<img src=\"" ++ src ++ "\" alt=\"" ++ alt ++ "\"/></figure>\n" ++
    "<!-- /wp:image -->"

/-- `converter._button`. -/
def button (text url : String) (bg_color text_color : Option PyVal)
    (style_type : String) (border_radius : Option PyVal) : String :=
  let link_classes := ["wp-block-button__link"]
  let outer_classes := ["wp-block-button"]
  let r := if style_type = "outline" then
      let outer_classes := outer_classes ++ ["is-style-outline"]
      if opvTruthy bg_color then
        let bg := bg_color.getD (.str "")
        let style := dsetIn [] "border" "width" (.str "2px")
        let style := dsetIn style "border" "color" bg
        let style := dsetIn style "color" "text" bg
        let link_classes := link_classes ++ ["has-text-color", "has-border-color"]
        let css := buildCss bg_color (some (.str "2px")) none bg_color none none none none
        (outer_classes, link_classes, style, css)
      else (outer_classes, link_classes, ([] : List (String × PyVal)), "")
    else
      let style : List (String × PyVal) := []
      let (style, link_classes) := if opvTruthy bg_color then
        (dsetIn style "color" "background" (bg_color.getD (.str "")),
         link_classes ++ ["has-background"]) else (style, link_classes)
      let (style, link_classes) := if opvTruthy text_color then
        (dsetIn style "color" "text" (text_color.getD (.str "")),
         link_classes ++ ["has-text-color"]) else (style, link_classes)
      let style := if opvTruthy border_radius then
        dsetIn style "border" "radius" (border_radius.getD (.str "")) else style
      -- the Python gathers the truthy values in `css_parts` and calls
      -- `_build_css(**css_parts)`; passing the options directly is
      -- equivalent because `_build_css` re-tests truthiness
      let css := buildCss none none border_radius text_color bg_color none none none
      (outer_classes, link_classes, style, css)
  let outer_classes := r.1
  let link_classes := r.2.1 ++ ["wp-element-button"]
  let style := r.2.2.1
  let css := r.2.2.2
  let attrs : List (String × PyVal) := if !style.isEmpty then [("style", .dict style)] else []
  let link_style := if css ≠ "" then " style=\"" ++ css ++ "\"" else ""
  let attr_str := if !attrs.isEmpty then " " ++ J (.dict attrs) else ""
  "<!-- wp:button" ++ attr_str ++ " -->\n" ++
    "<div class=\"" ++ String.intercalate " " outer_classes ++ "\">" ++
    "<a class=\"" ++ String.intercalate " " link_classes ++ "\" href=\"" ++ url ++ "\"" ++
    link_style ++ ">" ++ text ++ "</a>" ++
    "</div>\n" ++
    "<!-- /wp:button -->"

/-- `converter._buttons`. -/
def buttons (inner : List String) (align : Option String) : String :=
  let attrs : List (String × PyVal) := if osTruthy align then
    [("layout", .dict [("type", .str "flex"), ("justifyContent", .str (align.getD ""))])]
    else []
  let content := String.intercalate "\n" inner
  let attr_str := if !attrs.isEmpty then " " ++ J (.dict attrs) else ""
  "<!-- wp:buttons" ++ attr_str ++ " -->\n" ++
    "<div class=\"wp-block-buttons\">\n" ++ content ++ "\n</div>\n" ++
    "<!-- /wp:buttons -->"

/-- `converter._spacer`. -/
def spacer (height : Int) : String :=
  "<!-- wp:spacer " ++ J (.dict [("height", .str (toString height ++ "px"))]) ++ " -->\n" ++
    "<div style=\"height:" ++ toString height ++ "px\" aria-hidden=\"true\" " ++
    "class=\"wp-block-spacer\"></div>\n" ++
    "<!-- /wp:spacer -->"

/-- `converter._separator`. -/
def separator : String :=
  "<!-- wp:separator -->\n" ++
    "<hr class=\"wp-block-separator has-alpha-channel-opacity\"/>\n" ++
    "<!-- /wp:separator -->"

/-- `converter._gallery`. -/
def gallery (images : List GalleryImage) (columns : Int) (crop : Bool) : String :=
  let img_blocks := images.map (fun img =>
    let src := if osTruthy img.url then img.url.getD ""
      else placeholderSvg (if img.alt ≠ "" then img.alt else "Bilde") 600 400
    let caption_html := if img.caption ≠ "" then
      "<figcaption class=\"wp-element-caption\">" ++ img.caption ++ "</figcaption>" else ""
    "<!-- wp:image " ++ J (.dict [("sizeSlug", .str "large")]) ++ " -->\n" ++
      "<figure class=\"wp-block-image size-large\">" ++
      "<img src=\"" ++ src ++ "\" alt=\"" ++ img.alt ++ "\"/>" ++ caption_html ++ "</figure>\n" ++
      "<!-- /wp:image -->")
  let attrs : List (String × PyVal) := [("columns", .int columns), ("linkTo", .str "none")]
  let attrs := if crop then dset attrs "imageCrop" (.bool true) else attrs
  let inner := String.intercalate "\n\n" img_blocks
  "<!-- wp:gallery " ++ J (.dict attrs) ++ " -->\n" ++
    "<figure class=\"wp-block-gallery has-nested-images columns-" ++ toString columns ++
    " is-cropped\">\n" ++ inner ++ "\n</figure>\n" ++
    "<!-- /wp:gallery -->"

/-- `converter._list_block`. -/
def listBlock (items : List String) (ordered : Bool) : String :=
  let tag := if ordered then "ol" else "ul"
  let li_blocks := items.map (fun item =>
    "<!-- wp:list-item -->\n<li>" ++ item ++ "</li>\n<!-- /wp:list-item -->")
  let inner := String.intercalate "\n" li_blocks
  let attrs : List (String × PyVal) := if ordered then [("ordered", .bool true)] else []
  let attr_str := if !attrs.isEmpty then " " ++ J (.dict attrs) else ""
  "<!-- wp:list" ++ attr_str ++ " -->\n" ++
    "<" ++ tag ++ ">\n" ++ inner ++ "\n</" ++ tag ++ ">\n" ++
    "<!-- /wp:list -->"

/-- The class list computed in `converter._group` (lines 294–302);
border-radius adds no class. -/
def groupClasses (bg_color text_color : Option PyVal) (align : Option String) :
    List String :=
  let classes := ["wp-block-group"]
  let classes := if osTruthy align then classes ++ ["align" ++ align.getD ""] else classes
  let classes := if opvTruthy text_color then classes ++ ["has-text-color"] else classes
  let classes := if opvTruthy bg_color then classes ++ ["has-background"] else classes
  classes

/-- The inline-CSS declaration list of `converter._group`. -/
def groupCssParts (bg_color text_color : Option PyVal) (padding : Option Pad)
    (min_height border_radius : Option PyVal) : List String :=
  buildCssParts none none border_radius text_color bg_color min_height padding none

/-- `converter._group`. -/
def group (inner : List String) (bg_color text_color : Option PyVal)
    (padding : Option Pad) (min_height border_radius : Option PyVal)
    (align : Option String) (layout_type : String) : String :=
  let style : List (String × PyVal) := []
  let style := if opvTruthy bg_color then
    dsetIn style "color" "background" (bg_color.getD (.str "")) else style
  let style := if opvTruthy text_color then
    dsetIn style "color" "text" (text_color.getD (.str "")) else style
  let style := if padTruthy padding then
    dsetIn style "spacing" "padding" (.dict (padding.getD [])) else style
  let style := if opvTruthy min_height then
    dsetIn style "dimensions" "minHeight" (min_height.getD (.str "")) else style
  let style := if opvTruthy border_radius then
    dsetIn style "border" "radius" (border_radius.getD (.str "")) else style
  let attrs : List (String × PyVal) := [("layout", .dict [("type", .str layout_type)])]
  let attrs := if osTruthy align then dset attrs "align" (.str (align.getD "")) else attrs
  let attrs := if !style.isEmpty then dset attrs "style" (.dict style) else attrs
  let classes := groupClasses bg_color text_color align
  let css := String.intercalate ";" (groupCssParts bg_color text_color padding min_height border_radius)
  let style_attr := if css ≠ "" then " style=\"" ++ css ++ "\"" else ""
  let content := String.intercalate "\n" inner
  "<!-- wp:group " ++ J (.dict attrs) ++ " -->\n" ++
    "<div class=\"" ++ String.intercalate " " classes ++ "\"" ++ style_attr ++ ">\n" ++
    content ++ "\n</div>\n" ++
    "<!-- /wp:group -->"

/-- `converter._columns`; note the inner blocks are joined by `""`. -/
def columns (inner : List String) (align : Option String) : String :=
  let attrs : List (String × PyVal) := if osTruthy align then [("align", .str (align.getD ""))] else []
  let classes := ["wp-block-columns"] ++ (if osTruthy align then ["align" ++ align.getD ""] else [])
  "<!-- wp:columns " ++ J (.dict attrs) ++ " -->\n" ++
    "<div class=\"" ++ String.intercalate " " classes ++ "\">\n" ++
    String.join inner ++ "\n</div>\n" ++
    "<!-- /wp:columns -->"

/-- `converter._column`. -/
def column (inner : List String) (width bg_color text_color : Option PyVal)
    (padding : Option Pad) (border_radius border_color border_width : Option PyVal) : String :=
  let attrs : List (String × PyVal) := []
  let attrs := if opvTruthy width then dset attrs "width" (width.getD (.str "")) else attrs
  let style : List (String × PyVal) := []
  let style := if opvTruthy bg_color then
    dsetIn style "color" "background" (bg_color.getD (.str "")) else style
  let style := if opvTruthy text_color then
    dsetIn style "color" "text" (text_color.getD (.str "")) else style
  let style := if padTruthy padding then
    dsetIn style "spacing" "padding" (.dict (padding.getD [])) else style
  let style := if opvTruthy border_radius then
    dsetIn style "border" "radius" (border_radius.getD (.str "")) else style
  let style := if opvTruthy border_width then
    dsetIn style "border" "width" (border_width.getD (.str "")) else style
  let style := if opvTruthy border_color then
    dsetIn style "border" "color" (border_color.getD (.str "")) else style
  let attrs := if !style.isEmpty then dset attrs "style" (.dict style) else attrs
  let classes := ["wp-block-column"]
  let classes := if opvTruthy border_color ∨ opvTruthy border_width then
    classes ++ ["has-border-color"] else classes
  let classes := if opvTruthy text_color then classes ++ ["has-text-color"] else classes
  let classes := if opvTruthy bg_color then classes ++ ["has-background"] else classes
  let css := buildCss border_color border_width border_radius text_color bg_color none padding none
  let style_attr := if css ≠ "" then " style=\"" ++ css ++ "\"" else ""
  let content := String.intercalate "\n" inner
  "<!-- wp:column " ++ J (.dict attrs) ++ " -->\n" ++
    "<div class=\"" ++ String.intercalate " " classes ++ "\"" ++ style_attr ++ ">\n" ++
    content ++ "\n</div>\n" ++
    "<!-- /wp:column -->"

/-- CPython `round(d / 10)`: banker's rounding of the exact rational `d/10`
(the float `d/10` is exactly representable at the `.5` ties and never crosses
a rounding boundary otherwise for the magnitudes at hand). -/
def pyRound10 (d : Int) : Int :=
  let q := d.fdiv 10
  let r := d.fmod 10
  if r < 5 then q
  else if r > 5 then q + 1
  else if q.fmod 2 = 0 then q else q + 1

/-- `dim_class_val = round(dim_ratio / 10) * 10` from `converter._cover`. -/
def coverDimClass (d : Int) : Int := pyRound10 d * 10

/-- `converter._cover`; `dim` is the `dim_ratio` argument. -/
def cover (inner : List String) (bg_image_url : Option String) (dim min_height : Int)
    (overlay_color align : Option String) : String :=
  let attrs : List (String × PyVal) :=
    [("dimRatio", .int dim), ("minHeight", .int min_height), ("isDark", .bool true)]
  let attrs := if osTruthy bg_image_url then dset attrs "url" (.str (bg_image_url.getD "")) else attrs
  let attrs := if osTruthy overlay_color then
    dset attrs "overlayColor" (.str (overlay_color.getD "")) else attrs
  let attrs := if osTruthy align then dset attrs "align" (.str (align.getD "")) else attrs
  let content := String.intercalate "\n" inner
  let dim_class_val := coverDimClass dim
  let classes := ["wp-block-cover"]
  let classes := if osTruthy align then classes ++ ["align" ++ align.getD ""] else classes
  let classes := classes ++ ["is-dark"]
  let img_tag := if osTruthy bg_image_url then
    "<img class=\"wp-block-cover__image-background\" alt=\"\" " ++
      "src=\"" ++ bg_image_url.getD "" ++ "\" data-object-fit=\"cover\"/>" else ""
  "<!-- wp:cover " ++ J (.dict attrs) ++ " -->\n" ++
    "<div class=\"" ++ String.intercalate " " classes ++ "\" style=\"min-height:" ++
    toString min_height ++ "px\">" ++ img_tag ++
    "<span aria-hidden=\"true\" class=\"wp-block-cover__background has-background-dim-" ++
    toString dim_class_val ++ " has-background-dim\"></span>" ++
    "<div class=\"wp-block-cover__inner-container\">\n" ++ content ++ "\n</div></div>\n" ++
    "<!-- /wp:cover -->"

end Converter

namespace Converter

/-- The `buttons` loop of `converter._convert_content_item`: `b["text"]`
raises `KeyError` when absent. -/
def convertBtns : List Btn → Except PyErr (List String)
  | [] => .ok []
  | b :: rest =>
      match b.text with
      | none => .error (.keyError "text")
      | some t =>
          match convertBtns rest with
          | .error e => .error e
          | .ok xs =>
              .ok (button t (b.url.getD "#") b.bg_color b.text_color
                (b.style.getD "fill") b.border_radius :: xs)

mutual

/-- `converter._convert_content_item`.  `item["text"]` on headings and
paragraphs raises `KeyError` when the key is absent. -/
def convertContentItem : ContentItem → Except PyErr String
  | .mk f colItems =>
      let t := f.type
      if t = some "heading" then
        match f.text with
        | none => .error (.keyError "text")
        | some text => .ok (heading text (f.level.getD 2) f.color f.font_size f.align)
      else if t = some "paragraph" then
        match f.text with
        | none => .error (.keyError "text")
        | some text => .ok (paragraph text f.color f.font_size f.align)
      else if t = some "image" then
        .ok (image f.url (f.alt.getD "") (f.width.getD 800) (f.height.getD 400))
      else if t = some "buttons" then
        match convertBtns f.btnItems with
        | .error e => .error e
        | .ok btns => .ok (buttons btns f.align)
      else if t = some "list" then
        .ok (listBlock f.strItems (f.ordered.getD false))
      else if t = some "spacer" then
        .ok (spacer (f.height.getD 40))
      else if t = some "separator" then
        .ok separator
      else if t = some "columns" then
        match convertColItems colItems with
        | .error e => .error e
        | .ok col_blocks => .ok (columns col_blocks (some "wide"))
      else
        .ok ("<!-- unknown content type: " ++
          (match t with | some s => s | none => "None") ++ " -->")

/-- List comprehension `[_convert_content_item(c) for c in cs]`. -/
def convertItemList : List ContentItem → Except PyErr (List String)
  | [] => .ok []
  | c :: rest =>
      match convertContentItem c with
      | .error e => .error e
      | .ok s =>
          match convertItemList rest with
          | .error e => .error e
          | .ok xs => .ok (s :: xs)

/-- The nested-columns loop of `converter._convert_content_item`. -/
def convertColItems : List (List ContentItem) → Except PyErr (List String)
  | [] => .ok []
  | g :: rest =>
      match convertItemList g with
      | .error e => .error e
      | .ok inner =>
          match convertColItems rest with
          | .error e => .error e
          | .ok xs => .ok (column inner none none none none none none none :: xs)

end

/-- `converter._apply_section_align`. -/
def applySectionAlign (c : ContentItem) (section_align : Option String) : ContentItem :=
  if !osTruthy section_align then c
  else if osTruthy c.f.align then c
  else if c.f.type = some "heading" ∨ c.f.type = some "paragraph" ∨ c.f.type = some "buttons" then
    .mk { c.f with align := section_align } c.colItems
  else c

/-- `converter._DEFAULT_SECTION_ALIGN`. -/
def DEFAULT_SECTION_ALIGN : List (String × String) :=
  [("hero", "center"), ("cta", "center"), ("image-gallery", "center"),
   ("features", "center"), ("stats", "center"), ("testimonial", "center"),
   ("quote", "center"), ("logo-strip", "center")]

/-- `converter._resolve_section_align`. -/
def resolveSectionAlign (s : Sect) : Option String :=
  if osTruthy s.align then s.align
  else match s.type with
    | some t => (DEFAULT_SECTION_ALIGN.find? (fun kv => kv.1 = t)).map (·.2)
    | none => none

/-- The `bg_color` computed by the color branch of `converter._convert_hero`:
`bg.get("value", "#1a1a2e")` — the flat `background_color` key is not
consulted. -/
def heroBgColor (bg : Background) : String := bg.value.getD "#1a1a2e"

/-- `converter._convert_hero`. -/
def convertHero (s : Sect) : Except PyErr String :=
  let bg := s.background.getD {}
  let section_align := pyOrS (resolveSectionAlign s) (some "center")
  match convertItemList (s.content.map (fun c => applySectionAlign c section_align)) with
  | .error e => .error e
  | .ok content =>
    let min_h := s.min_height.getD 600
    if bg.type = some "image" then
      let img_url := if osTruthy bg.url then bg.url.getD ""
        else placeholderSvg "Hero bakgrunn" 1920 800
      .ok (cover content (some img_url) (bg.overlay_opacity.getD 50) min_h none (some "full"))
    else
      .ok (group content (some (.str (heroBgColor bg))) none
        (some [("top", .str "80px"), ("bottom", .str "80px"),
               ("left", .str "40px"), ("right", .str "40px")])
        (some (.str (toString min_h ++ "px"))) none (some "full") "constrained")

/-- The per-item loop of `converter._convert_columns_section`. -/
def columnsSectionItem (s : Sect) (section_align : Option String)
    (item : SectionItem) : Except PyErr String :=
  let item_align := match item.align with
    | some a => some a
    | none => section_align
  match convertItemList (item.content.map (fun c => applySectionAlign c item_align)) with
  | .error e => .error e
  | .ok inner =>
    let cs := item.card_style.getD {}
    let section_styling := s.styling.getD {}
    let item_bg := pyOrV cs.background_color item.background_color
    let item_border_color := pyOrV cs.border_color item.border_color
    let item_border_width := pyOrV cs.border_width item.border_width
    let (item_border_color, item_border_width) :=
      if !opvTruthy item_bg ∧ !opvTruthy item_border_color then
        (some (.str "#e0e0e0"), some (.str "1px"))
      else (item_border_color, item_border_width)
    .ok (column inner none item_bg
      (pyOrV cs.text_color item.text_color)
      ((pyOrP cs.padding (pyOrP item.padding
        (some [("top", .str "20px"), ("right", .str "20px"),
               ("bottom", .str "20px"), ("left", .str "20px")]))).getD [] |> some)
      (pyOrV cs.border_radius (pyOrV item.border_radius section_styling.card_border_radius))
      item_border_color item_border_width)

/-- Error-propagating loop over section items. -/
def columnsSectionItems (s : Sect) (section_align : Option String) :
    List SectionItem → Except PyErr (List String)
  | [] => .ok []
  | it :: rest =>
      match columnsSectionItem s section_align it with
      | .error e => .error e
      | .ok b =>
          match columnsSectionItems s section_align rest with
          | .error e => .error e
          | .ok xs => .ok (b :: xs)

/-- `converter._convert_columns_section`. -/
def convertColumnsSection (s : Sect) : Except PyErr String :=
  let section_align := resolveSectionAlign s
  match columnsSectionItems s section_align s.items with
  | .error e => .error e
  | .ok col_blocks =>
    match convertItemList (s.content.map (fun c => applySectionAlign c section_align)) with
    | .error e => .error e
    | .ok section_content =>
      let cols_html := columns col_blocks (some "wide")
      let bg := s.background_color
      let pad := s.padding
      if opvTruthy bg ∨ padTruthy pad ∨ !section_content.isEmpty then
        .ok (group (section_content ++ [cols_html]) bg none pad none none (some "full") "constrained")
      else .ok cols_html

/-- The `bg_color` resolution of `converter._convert_cta` (lines 609–612):
structured `background.value` first, then flat `background_color`, then
`"#333333"`. -/
def ctaBgColor (s : Sect) : PyVal :=
  let bg := s.background.getD {}
  if osTruthy bg.value then .str (bg.value.getD "")
  else s.background_color.getD (.str "#333333")

/-- `d[k] = d.get(k, "40px")` for both horizontal sides, as in
`{**pad, "left": pad.get("left", "40px"), "right": pad.get("right", "40px")}`. -/
def padWithLR (pad : Pad) : Pad :=
  let pad := dset pad "left" ((dget pad "left").getD (.str "40px"))
  dset pad "right" ((dget pad "right").getD (.str "40px"))

/-- `converter._convert_cta`. -/
def convertCta (s : Sect) : Except PyErr String :=
  let bg_color := ctaBgColor s
  let section_align := pyOrS (resolveSectionAlign s) (some "center")
  match convertItemList (s.content.map (fun c => applySectionAlign c section_align)) with
  | .error e => .error e
  | .ok content =>
    let styling := s.styling.getD {}
    let pad := (pyOrP styling.padding (pyOrP s.padding
      (some [("top", .str "80px"), ("bottom", .str "80px")]))).getD []
    let min_h := s.min_height
    .ok (group content (some bg_color) none (some (padWithLR pad))
      (if oiTruthy min_h then some (.str (toString (min_h.getD 0) ++ "px")) else none)
      none (some "full") "constrained")

/-- The caption-building loop of `converter._convert_image_gallery`. -/
def galleryImageOf (img : ImgSpec) : GalleryImage :=
  let caption_parts : List String := []
  let caption_parts := if osTruthy img.caption_title then
    caption_parts ++ ["<strong>" ++ img.caption_title.getD "" ++ "</strong>"] else caption_parts
  let caption_parts := if osTruthy img.caption_meta then
    caption_parts ++ [img.caption_meta.getD ""] else caption_parts
  { alt := img.description.getD "Bilde",
    url := img.url,
    caption := if !caption_parts.isEmpty then String.intercalate "<br>" caption_parts else "" }

/-- `converter._convert_image_gallery`. -/
def convertImageGallery (s : Sect) : Except PyErr String :=
  let section_align := resolveSectionAlign s
  match convertItemList (s.content.map (fun c => applySectionAlign c section_align)) with
  | .error e => .error e
  | .ok content_blocks =>
    let images := s.images
    let layoutSpec := s.layout.getD {}
    let num_cols := layoutSpec.columns.getD (min (images.length : Int) 3)
    let gallery_images := images.map galleryImageOf
    let gallery_block := gallery gallery_images num_cols true
    let bg := s.background_color
    let pad := s.padding
    let all_inner := content_blocks ++ [gallery_block]
    if opvTruthy bg ∨ padTruthy pad then
      .ok (group all_inner bg none pad none none (some "full") "constrained")
    else .ok (String.intercalate "\n\n" all_inner)

/-- `converter._convert_logo_strip`. -/
def convertLogoStrip (s : Sect) : Except PyErr String :=
  let section_align := pyOrS (resolveSectionAlign s) (some "center")
  match convertItemList (s.content.map (fun c => applySectionAlign c section_align)) with
  | .error e => .error e
  | .ok content_blocks =>
    let images := s.images
    let num_logos : Int := if !images.isEmpty then images.length else 6
    let gallery_images := images.map (fun img =>
      ({ alt := img.description.getD "Logo", url := img.url, caption := "" } : GalleryImage))
    let gallery_block := gallery gallery_images (min num_logos 8) false
    let bg := s.background_color
    let pad := s.padding.getD [("top", .str "40px"), ("bottom", .str "40px")]
    let all_inner := content_blocks ++ [gallery_block]
    .ok (group all_inner bg none (some pad) none none (some "full") "constrained")

/-- `item.get("type") == "heading"` in the footer grouping scan. -/
def isHeadingItem (c : ContentItem) : Bool := c.f.type = some "heading"

/-- The column-grouping scan of `converter._convert_footer` (lines 705–713):
`col_groups`/`current` accumulate; a heading flushes a non-empty `current`. -/
def footerColGroupsAux : List ContentItem → List (List ContentItem) →
    List ContentItem → List (List ContentItem)
  | [], groups, current => if !current.isEmpty then groups ++ [current] else groups
  | c :: rest, groups, current =>
      if isHeadingItem c ∧ !current.isEmpty then
        footerColGroupsAux rest (groups ++ [current]) [c]
      else footerColGroupsAux rest groups (current ++ [c])

/-- The footer partition of content items into column groups. -/
def footerColGroups (content : List ContentItem) : List (List ContentItem) :=
  footerColGroupsAux content [] []

/-- `while len(col_groups) < num_cols: col_groups.append([])`. -/
def padColGroups (gs : List (List ContentItem)) (n : Int) : List (List ContentItem) :=
  if h : (gs.length : Int) < n then padColGroups (gs ++ [[]]) n else gs
termination_by (n - gs.length).toNat
decreasing_by
  simp only [List.length_append, List.length_cons, List.length_nil]
  omega

/-- The flat-or-structured-or-default background of `converter._convert_footer`. -/
def footerBgColor (s : Sect) : PyVal :=
  let bg_obj := s.background.getD {}
  if opvTruthy s.background_color then s.background_color.getD (.str "")
  else if osTruthy bg_obj.value then .str (bg_obj.value.getD "")
  else .str "#333333"

/-- The column-block loop of `converter._convert_footer`. -/
def footerColBlocks : List (List ContentItem) → Except PyErr (List String)
  | [] => .ok []
  | grp :: rest =>
      match convertItemList grp with
      | .error e => .error e
      | .ok inner =>
          match footerColBlocks rest with
          | .error e => .error e
          | .ok xs => .ok (column inner none none none none none none none :: xs)

/-- `converter._convert_footer`. -/
def convertFooter (s : Sect) : Except PyErr String :=
  let bg := footerBgColor s
  let pad := s.padding.getD [("top", .str "60px"), ("bottom", .str "60px")]
  let layoutSpec := s.layout.getD {}
  let num_cols := layoutSpec.columns.getD 1
  let content := s.content
  if num_cols > 1 then
    let col_groups := padColGroups (footerColGroups content) num_cols
    match footerColBlocks col_groups with
    | .error e => .error e
    | .ok col_blocks =>
      let cols := columns col_blocks (some "wide")
      .ok (group [cols] (some bg) none (some (padWithLR pad)) none none (some "full") "constrained")
  else
    match convertItemList content with
    | .error e => .error e
    | .ok inner =>
      .ok (group inner (some bg) none (some (padWithLR pad)) none none (some "full") "constrained")

/-- `converter._convert_generic`. -/
def convertGeneric (s : Sect) : Except PyErr String :=
  let section_align := resolveSectionAlign s
  match convertItemList (s.content.map (fun c => applySectionAlign c section_align)) with
  | .error e => .error e
  | .ok content =>
    let bg := s.background_color
    let pad := s.padding
    if opvTruthy bg ∨ padTruthy pad ∨ !content.isEmpty then
      .ok (group content bg none pad none none (some "full") "constrained")
    else .ok ""

/-- `converter.convert_section`. -/
def convertSection (s : Sect) : Except PyErr String :=
  let t := s.type.getD ""
  if t = "hero" then convertHero s
  else if t = "columns" ∨ t = "features" ∨ t = "stats" then convertColumnsSection s
  else if t = "cta" then convertCta s
  else if t = "image-gallery" then convertImageGallery s
  else if t = "logo-strip" then convertLogoStrip s
  else if t = "footer" then convertFooter s
  else convertGeneric s

/-- `converter._theme_override_css`. -/
def themeOverrideCss : String :=
  let css := ".site-header \x7b display: none !important; \x7d" ++
    " .site-footer \x7b display: none !important; \x7d" ++
    " .entry-hero-container-inner \x7b display: none !important; \x7d" ++
    " .entry-content-wrap \x7b padding: 0 !important; max-width: 100% !important; \x7d" ++
    " .wp-block-gallery:not(.is-cropped) .wp-block-image img" ++
    " \x7b max-height: 60px; width: auto; object-fit: contain; \x7d"
  "<!-- wp:html -->\n<style>" ++ css ++ "</style>\n<!-- /wp:html -->"

/-- The section loop of `converter.convert_layout`: `i` is the index of the
first remaining section and `n` the total number of sections; a non-empty
converted block is appended, followed by a 30px spacer when `i` is not the
last index. -/
def convertLayoutAux : List Sect → Nat → Nat → Except PyErr (List String)
  | [], _, _ => .ok []
  | s :: rest, i, n =>
      match convertSection s with
      | .error e => .error e
      | .ok block =>
          match convertLayoutAux rest (i + 1) n with
          | .error e => .error e
          | .ok tailBlocks =>
              if block ≠ "" then
                .ok ((block :: (if i < n - 1 then [spacer 30] else [])) ++ tailBlocks)
              else .ok tailBlocks

/-- The `blocks` list of `converter.convert_layout` (theme-override block
first, then the converted sections with interleaved spacers). -/
def convertLayoutBlocks (layout : Layout) : Except PyErr (List String) :=
  match convertLayoutAux layout.sections 0 layout.sections.length with
  | .error e => .error e
  | .ok bs => .ok (themeOverrideCss :: bs)

/-- `converter.convert_layout`. -/
def convertLayout (layout : Layout) : Except PyErr String :=
  match convertLayoutBlocks layout with
  | .error e => .error e
  | .ok blocks => .ok (String.intercalate "\n\n" blocks)

/-- `[convert_section(s) for s in ss]` — the per-section conversion results,
used to state properties of the spacer interleaving. -/
def sectionBlocksL : List Sect → Except PyErr (List String)
  | [] => .ok []
  | s :: rest =>
      match convertSection s with
      | .error e => .error e
      | .ok b =>
          match sectionBlocksL rest with
          | .error e => .error e
          | .ok bs => .ok (b :: bs)

/-- The per-section conversion results of a whole layout document. -/
def sectionBlocks (layout : Layout) : Except PyErr (List String) :=
  sectionBlocksL layout.sections

end Converter

/-!  ## gutenberg_blocks.py — portable-dialect builders used by page_builder -/

namespace GB

/-- `gutenberg_blocks._attrs`: `json.dumps(clean, ensure_ascii=False)` with
default separators and a leading space; the embedded dicts never contain
`None` values, so the `clean` filtering is the identity. -/
def attrsStr (d : List (String × PyVal)) : String :=
  if d.isEmpty then "" else " " ++ jsonDump false ", " ": " (.dict d)

/-- `gutenberg_blocks._esc`. -/
def esc (text : String) : String := if text ≠ "" then htmlEscape text else ""

/-- `gutenberg_blocks.paragraph`. -/
def paragraph (text : String) (align : Option String)
    (text_color background_color font_size : Option PyVal) (drop_cap : Bool)
    (style : Option PyVal) : String :=
  let attrs : List (String × PyVal) := []
  let attrs := if osTruthy align then dset attrs "align" (.str (align.getD "")) else attrs
  let attrs := if opvTruthy text_color then dset attrs "textColor" (text_color.getD (.str "")) else attrs
  let attrs := if opvTruthy background_color then
    dset attrs "backgroundColor" (background_color.getD (.str "")) else attrs
  let attrs := if opvTruthy font_size then dset attrs "fontSize" (font_size.getD (.str "")) else attrs
  let attrs := if drop_cap then dset attrs "dropCap" (.bool true) else attrs
  let attrs := if opvTruthy style then dset attrs "style" (style.getD (.str "")) else attrs
  let classes : List String := []
  let classes := if osTruthy align then classes ++ ["has-text-align-" ++ align.getD ""] else classes
  let classes := if opvTruthy text_color then
    classes ++ ["has-" ++ pyStr (text_color.getD (.str "")) ++ "-color has-text-color"] else classes
  let classes := if opvTruthy background_color then
    classes ++ ["has-" ++ pyStr (background_color.getD (.str "")) ++ "-background-color has-background"]
    else classes
  let classes := if opvTruthy font_size then
    classes ++ ["has-" ++ pyStr (font_size.getD (.str "")) ++ "-font-size"] else classes
  let classes := if drop_cap then classes ++ ["has-drop-cap"] else classes
  let class_attr := if !classes.isEmpty then
    " class=\"" ++ String.intercalate " " classes ++ "\"" else ""
  "<!-- wp:paragraph" ++ attrsStr attrs ++ " -->\n" ++
    "<p" ++ class_attr ++ ">" ++ esc text ++ "</p>\n" ++
    "<!-- /wp:paragraph -->"

/-- `gutenberg_blocks.separator` (only the default style is invoked). -/
def separator (style_type : String) (color : Option PyVal) : String :=
  let attrs : List (String × PyVal) := []
  let classes := ["wp-block-separator has-alpha-channel-opacity"]
  let (attrs, classes) := if style_type = "wide" then
      (dset attrs "className" (.str "is-style-wide"), classes ++ ["is-style-wide"])
    else if style_type = "dots" then
      (dset attrs "className" (.str "is-style-dots"), classes ++ ["is-style-dots"])
    else (attrs, classes)
  let attrs := if opvTruthy color then dset attrs "backgroundColor" (color.getD (.str "")) else attrs
  "<!-- wp:separator" ++ attrsStr attrs ++ " -->\n" ++
    "<hr class=\"" ++ String.intercalate " " classes ++ "\"/>\n" ++
    "<!-- /wp:separator -->"

/-- `gutenberg_blocks.list_block`. -/
def listBlock (items : List String) (ordered : Bool) : String :=
  let attrs : List (String × PyVal) := if ordered then [("ordered", .bool true)] else []
  let tag := if ordered then "ol" else "ul"
  let li_html := String.intercalate "\n" (items.map (fun item =>
    "<!-- wp:list-item -->\n<li>" ++ esc item ++ "</li>\n<!-- /wp:list-item -->"))
  "<!-- wp:list" ++ attrsStr attrs ++ " -->\n" ++
    "<" ++ tag ++ ">\n" ++ li_html ++ "\n</" ++ tag ++ ">\n" ++
    "<!-- /wp:list -->"

/-- `gutenberg_blocks.quote`. -/
def quote (text : String) (citation align : Option String) : String :=
  let attrs : List (String × PyVal) := if osTruthy align then [("align", .str (align.getD ""))] else []
  let cite := if osTruthy citation then "\n<cite>" ++ esc (citation.getD "") ++ "</cite>" else ""
  "<!-- wp:quote" ++ attrsStr attrs ++ " -->\n" ++
    "<blockquote class=\"wp-block-quote\">\n" ++
    "<p>" ++ esc text ++ "</p>" ++ cite ++ "\n" ++
    "</blockquote>\n" ++
    "<!-- /wp:quote -->"

end GB

/-!  ## kadence_blocks.py — the native-extension dialect

`random.choices` is modelled by a stream `Uids` of 6-character draws together
with a counter of how many draws have happened; `_uid` consumes the next
draw.  All kadence builders (and the page-builder functions composed from
them) run in `PBM`. -/

/-- The stream of strings produced by successive `random.choices` calls. -/
abbrev Uids := Nat → String

/-- State/reader/except monad of the kadence embedding: reader for the random
stream, state for the draw counter, `Except` for Python exceptions. -/
abbrev PBM (α : Type) := ReaderT Uids (StateT Nat (Except PyErr)) α

/-- Run a `PBM` computation on a stream and an initial draw counter. -/
def runPB {α : Type} (m : PBM α) (gen : Uids) (k : Nat) : Except PyErr (α × Nat) :=
  (m.run gen).run k

/-- Run a `PBM` computation and keep only its result. -/
def runPBOut {α : Type} (m : PBM α) (gen : Uids) (k : Nat) : Except PyErr α :=
  (runPB m gen k).map Prod.fst

namespace KB

/-- `kadence_blocks._uid`. -/
def uid (pre : String) : PBM String := do
  let gen ← read
  let k ← get
  set (k + 1)
  pure ("_" ++ pre ++ gen k)

/-- `uid = unique_id or _uid(pre)`: mint only when the caller-supplied id is
falsy (`None` or `""`). -/
def uidOr (unique_id : Option String) (pre : String) : PBM String :=
  if osTruthy unique_id then pure (unique_id.getD "") else uid pre

/-- `kadence_blocks._attrs`: compact separators, no ASCII escaping, leading
space; the embedded dicts never contain `None` values. -/
def attrsStr (d : List (String × PyVal)) : String :=
  if d.isEmpty then "" else " " ++ jsonDump false "," ":" (.dict d)

/-- `kadence_blocks._esc`. -/
def esc (text : String) : String := if text ≠ "" then htmlEscape text else ""

/-- `kadence_blocks.row_layout`. -/
def rowLayout (inner_blocks : List String) (unique_id : Option String)
    (columns : Int) (col_layout : String) (bg_color : Option PyVal)
    (bg_img : Option String) (overlay_opacity : Option PyVal)
    (overlay_color : Option PyVal) (padding margin : Option (List Int))
    (min_height : Option Int) (align : Option String) (max_width : Option Int)
    (vertical_align : Option String) : PBM String := do
  let u ← uidOr unique_id "r"
  let attrs : List (String × PyVal) :=
    [("uniqueID", .str u), ("columns", .int columns), ("colLayout", .str col_layout)]
  let attrs := if opvTruthy bg_color then dset attrs "bgColor" (bg_color.getD (.str "")) else attrs
  let attrs := if osTruthy bg_img then
    dset attrs "bgImg" (.arr [.dict [("bgImg", .str (bg_img.getD "")),
      ("bgImgSize", .str "cover"), ("bgImgPosition", .str "center center")]]) else attrs
  let attrs := match overlay_opacity with
    | some v => dset attrs "overlayOpacity" v
    | none => attrs
  let attrs := if opvTruthy overlay_color then
    dset attrs "overlay" (overlay_color.getD (.str "")) else attrs
  let attrs := match padding with
    | some p =>
        if !p.isEmpty then
          let attrs := dset attrs "topPadding" (.int (p.getD 0 0))
          let attrs := dset attrs "bottomPadding" (.int (if p.length > 1 then p.getD 1 0 else p.getD 0 0))
          let attrs := if p.length > 2 then dset attrs "leftPadding" (.int (p.getD 2 0)) else attrs
          if p.length > 3 then dset attrs "rightPadding" (.int (p.getD 3 0)) else attrs
        else attrs
    | none => attrs
  let attrs := match margin with
    | some m =>
        if !m.isEmpty then
          let attrs := dset attrs "topMargin" (.int (m.getD 0 0))
          dset attrs "bottomMargin" (.int (if m.length > 1 then m.getD 1 0 else m.getD 0 0))
        else attrs
    | none => attrs
  let attrs := if oiTruthy min_height then
    dset (dset attrs "minHeight" (.int (min_height.getD 0))) "minHeightUnit" (.str "px") else attrs
  let attrs := if osTruthy align then dset attrs "align" (.str (align.getD "")) else attrs
  let attrs := if oiTruthy max_width then dset attrs "maxWidth" (.int (max_width.getD 0)) else attrs
  let attrs := if osTruthy vertical_align then
    dset attrs "verticalAlignment" (.str (vertical_align.getD "")) else attrs
  let inner := String.intercalate "\n" inner_blocks
  pure ("<!-- wp:kadence/rowlayout" ++ attrsStr attrs ++ " -->\n" ++
    inner ++ "\n" ++
    "<!-- /wp:kadence/rowlayout -->")

/-- `kadence_blocks.kb_column`. -/
def kbColumn (inner_blocks : List String) (unique_id : Option String)
    (bg_color : Option PyVal) (padding : Option (List Int))
    (text_color : Option PyVal) (text_align : Option String) : PBM String := do
  let u ← uidOr unique_id "c"
  let attrs : List (String × PyVal) := [("uniqueID", .str u), ("id", .int 1)]
  let attrs := if opvTruthy bg_color then dset attrs "background" (bg_color.getD (.str "")) else attrs
  let attrs := if opvTruthy text_color then dset attrs "textColor" (text_color.getD (.str "")) else attrs
  let attrs := if osTruthy text_align then
    dset attrs "textAlign" (.arr [.str (text_align.getD ""), .str "", .str ""]) else attrs
  let attrs := match padding with
    | some p =>
        if !p.isEmpty then
          let attrs := dset attrs "topPadding" (.int (p.getD 0 0))
          let attrs := dset attrs "bottomPadding" (.int (if p.length > 1 then p.getD 1 0 else p.getD 0 0))
          let attrs := if p.length > 2 then dset attrs "leftPadding" (.int (p.getD 2 0)) else attrs
          if p.length > 3 then dset attrs "rightPadding" (.int (p.getD 3 0)) else attrs
        else attrs
    | none => attrs
  let inner := String.intercalate "\n" inner_blocks
  pure ("<!-- wp:kadence/column" ++ attrsStr attrs ++ " -->\n" ++
    "<div class=\"wp-block-kadence-column kadence-column" ++ u ++
    "\"><div class=\"kt-inside-inner-col\">" ++ inner ++ "</div></div>\n" ++
    "<!-- /wp:kadence/column -->")

/-- `kadence_blocks.adv_heading`. -/
def advHeading (text : String) (unique_id : Option String) (level : Int)
    (color : Option PyVal) (size : Option Int) (align : Option String)
    (font_weight line_height letter_spacing margin padding font_family : Option PyVal) :
    PBM String := do
  let u ← uidOr unique_id "h"
  let attrs : List (String × PyVal) := [("uniqueID", .str u), ("level", .int level)]
  let attrs := if opvTruthy color then dset attrs "color" (color.getD (.str "")) else attrs
  let attrs := if oiTruthy size then
    dset attrs "fontSize" (.arr [.int (size.getD 0), .str "", .str ""]) else attrs
  let attrs := if osTruthy align then dset attrs "align" (.str (align.getD "")) else attrs
  let attrs := if opvTruthy font_weight then dset attrs "fontWeight" (font_weight.getD (.str "")) else attrs
  let attrs := if opvTruthy line_height then
    dset attrs "lineHeight" (.arr [line_height.getD (.str ""), .str "", .str ""]) else attrs
  let attrs := if opvTruthy letter_spacing then
    dset attrs "letterSpacing" (letter_spacing.getD (.str "")) else attrs
  let attrs := if opvTruthy margin then dset attrs "margin" (margin.getD (.str "")) else attrs
  let attrs := if opvTruthy padding then dset attrs "padding" (padding.getD (.str "")) else attrs
  let attrs := if opvTruthy font_family then dset attrs "typography" (font_family.getD (.str "")) else attrs
  let tag := "h" ++ toString level
  pure ("<!-- wp:kadence/advancedheading" ++ attrsStr attrs ++ " -->\n" ++
    "<" ++ tag ++ " class=\"kt-adv-heading" ++ u ++ " wp-block-kadence-advancedheading\" " ++
    "data-kb-block=\"kb-adv-heading" ++ u ++ "\">" ++ esc text ++ "</" ++ tag ++ ">\n" ++
    "<!-- /wp:kadence/advancedheading -->")

end KB

/-- One button dict handed to `kadence_blocks.adv_btn` (as constructed by
`page_builder._build_content_item`). -/
structure KBtn where
  text : Option String := none
  size : Option String := none
  link : Option String := none
  color : Option PyVal := none
  background : Option PyVal := none
  border_radius : Option PyVal := none

namespace KB

/-- The per-button loop of `kadence_blocks.adv_btn`; each iteration draws a
fresh uid (`_uid("sb")`) that the caller cannot supply. -/
def advBtnBlocks : List KBtn → PBM (List String)
  | [] => pure []
  | btn :: rest => do
      let btn_uid ← uid "sb"
      let btn_attrs : List (String × PyVal) :=
        [("uniqueID", .str btn_uid), ("text", .str (btn.text.getD "Button")),
         ("sizePreset", .str (btn.size.getD "medium"))]
      let btn_attrs := if osTruthy btn.link then
        dset btn_attrs "link" (.str (btn.link.getD "")) else btn_attrs
      let btn_attrs := if opvTruthy btn.color then
        dset btn_attrs "color" (btn.color.getD (.str "")) else btn_attrs
      let btn_attrs := if opvTruthy btn.background then
        dset btn_attrs "background" (btn.background.getD (.str "")) else btn_attrs
      let btn_attrs := if opvTruthy btn.border_radius then
        dset btn_attrs "borderRadius" (btn.border_radius.getD (.str "")) else btn_attrs
      let rest_blocks ← advBtnBlocks rest
      pure (("<!-- wp:kadence/singlebtn" ++ attrsStr btn_attrs ++ " /-->") :: rest_blocks)

/-- `kadence_blocks.adv_btn`. -/
def advBtn (buttons_data : List KBtn) (unique_id : Option String)
    (align : String) : PBM String := do
  let u ← uidOr unique_id "b"
  let btn_blocks ← advBtnBlocks buttons_data
  let attrs : List (String × PyVal) := [("uniqueID", .str u), ("hAlign", .str align)]
  let inner := String.intercalate "\n" btn_blocks
  pure ("<!-- wp:kadence/advancedbtn" ++ attrsStr attrs ++ " -->\n" ++
    "<div class=\"wp-block-kadence-advancedbtn kb-buttons-wrap kb-btns" ++ u ++
    " kt-btn-align-" ++ align ++ " kt-btns-wrap kt-btns" ++ u ++ "\">\n" ++
    inner ++ "\n</div>\n" ++
    "<!-- /wp:kadence/advancedbtn -->")

/-- `kadence_blocks.kb_spacer`. -/
def kbSpacer (height : Int) (unique_id : Option String) : PBM String := do
  let u ← uidOr unique_id "s"
  pure ("<!-- wp:kadence/spacer" ++
    attrsStr [("uniqueID", .str u), ("spacerHeight", .int height)] ++ " /-->")

/-- `kadence_blocks.kb_image`. -/
def kbImage (url : String) (unique_id : Option String) (alt : String)
    (wp_id : Option Int) (align : Option String) (max_width : Option Int) :
    PBM String := do
  let u ← uidOr unique_id "i"
  let attrs : List (String × PyVal) := [("uniqueID", .str u), ("imgLink", .str url)]
  let attrs := if oiTruthy wp_id then dset attrs "id" (.int (wp_id.getD 0)) else attrs
  let attrs := if osTruthy align then dset attrs "align" (.str (align.getD "")) else attrs
  let attrs := if oiTruthy max_width then dset attrs "maxWidth" (.int (max_width.getD 0)) else attrs
  pure ("<!-- wp:kadence/image" ++ attrsStr attrs ++ " -->\n" ++
    "<figure class=\"wp-block-kadence-image kb-image" ++ u ++ "\">" ++
    "<img src=\"" ++ url ++ "\" alt=\"" ++ esc alt ++ "\" class=\"kb-img\"/></figure>\n" ++
    "<!-- /wp:kadence/image -->")

end KB

/-- One testimonial dict handed to `kadence_blocks.testimonials`. -/
structure TItem where
  text : Option String := none
  name : Option String := none
  title : Option String := none
  rating : Option Int := none

namespace KB

/-- `kadence_blocks.testimonials`. -/
def testimonials (items : List TItem) (unique_id : Option String)
    (columns : Int) (style : String) : PBM String := do
  let u ← uidOr unique_id "t"
  let test_data := items.map (fun item => PyVal.dict
    [("content", .str (item.text.getD "")), ("name", .str (item.name.getD "")),
     ("title", .str (item.title.getD "")), ("icon", .str "star"),
     ("rating", .int (item.rating.getD 5))])
  let attrs : List (String × PyVal) :=
    [("uniqueID", .str u), ("testimonials", .arr test_data),
     ("columns", .arr [.int columns, .int columns, .int 1]), ("style", .str style)]
  pure ("<!-- wp:kadence/testimonials" ++ attrsStr attrs ++ " /-->")

/-- `kadence_blocks.icon_list`; `items` are the `{"icon", "text"}` dicts. -/
def iconList (items : List (Option String × Option String)) (unique_id : Option String)
    (icon : String) (color : Option PyVal) : PBM String := do
  let u ← uidOr unique_id "il"
  let list_items := items.map (fun it => PyVal.dict
    [("icon", .str (it.1.getD icon)), ("text", .str (it.2.getD ""))])
  let attrs : List (String × PyVal) := [("uniqueID", .str u), ("items", .arr list_items)]
  let attrs := if opvTruthy color then
    dset attrs "listStyles" (.arr [.dict [("color", color.getD (.str ""))]]) else attrs
  pure ("<!-- wp:kadence/iconlist" ++ attrsStr attrs ++ " /-->")

/-- The default `fields` list of `kadence_blocks.form_block`. -/
def defaultFormFields : List PyVal :=
  [.dict [("label", .str "Navn"), ("type", .str "text"), ("required", .bool true),
          ("width", .arr [.str "50", .str "", .str ""])],
   .dict [("label", .str "E-post"), ("type", .str "email"), ("required", .bool true),
          ("width", .arr [.str "50", .str "", .str ""])],
   .dict [("label", .str "Telefon"), ("type", .str "text"), ("required", .bool false),
          ("width", .arr [.str "50", .str "", .str ""])],
   .dict [("label", .str "Emne"), ("type", .str "text"), ("required", .bool false),
          ("width", .arr [.str "50", .str "", .str ""])],
   .dict [("label", .str "Melding"), ("type", .str "textarea"), ("required", .bool true),
          ("width", .arr [.str "100", .str "", .str ""])]]

/-- `kadence_blocks.form_block`. -/
def formBlock (unique_id : Option String) (email subject submit_text : String)
    (fields : Option (List PyVal)) : PBM String := do
  let u ← uidOr unique_id "f"
  let fields := if !(fields.map (fun l => !l.isEmpty)).getD false then defaultFormFields
    else fields.getD []
  let attrs : List (String × PyVal) :=
    [("uniqueID", .str u), ("fields", .arr fields),
     ("email", .arr [.dict [("emailTo", .str email), ("subject", .str subject)]]),
     ("submit", .arr [.dict [("label", .str submit_text)]]),
     ("actions", .arr [.str "email"])]
  pure ("<!-- wp:kadence/form" ++ attrsStr attrs ++ " /-->")

end KB

/-!  ## page_builder.py -/

namespace PB

/-- UTF-8 bytes of one character. -/
def utf8Bytes (c : Char) : List Nat :=
  let n := c.toNat
  if n < 128 then [n]
  else if n < 2048 then [192 + n / 64, 128 + n % 64]
  else if n < 65536 then [224 + n / 4096, 128 + n / 64 % 64, 128 + n % 64]
  else [240 + n / 262144, 128 + n / 4096 % 64, 128 + n / 64 % 64, 128 + n % 64]

/-- Upper-case hex digit. -/
def hexDigitU (n : Nat) : Char := (("0123456789ABCDEF".toList).getD n '0')

/-- `urllib.parse.quote` with the default `safe='/'`: ASCII letters, digits,
`_.-~` and `/` pass through, everything else is `%XX`-encoded byte-wise. -/
def urlQuote (s : String) : String :=
  String.join (s.toList.map (fun c =>
    if c.isAlpha ∨ c.isDigit ∨ c = '_' ∨ c = '.' ∨ c = '-' ∨ c = '~' ∨ c = '/' then
      String.singleton c
    else
      String.join ((utf8Bytes c).map (fun b =>
        String.mk ['%', hexDigitU (b / 16), hexDigitU (b % 16)]))))

/-- `page_builder._placeholder_svg`. -/
def placeholderSvg (desc : String) (w h : Int) : String :=
  let safe_desc := (desc.take 40).replace "\"" "'"
  let svg :=
    "<svg xmlns=\"http://www.w3.org/2000/svg\" width=\"" ++ toString w ++
      "\" height=\"" ++ toString h ++ "\">" ++
    "<rect width=\"100%\" height=\"100%\" fill=\"#e0e0e0\"/>" ++
    "<text x=\"50%\" y=\"50%\" dominant-baseline=\"middle\" text-anchor=\"middle\" " ++
    "font-family=\"Arial,sans-serif\" font-size=\"16\" fill=\"#666\">" ++ safe_desc ++ "</text>" ++
    "</svg>"
  "data:image/svg+xml," ++ urlQuote svg

/-- Digits of a decimal literal. -/
def digitsToNat? (l : List Char) : Option Nat :=
  if l.isEmpty then none
  else l.foldl (fun acc c =>
    match acc with
    | none => none
    | some n => if c.isDigit then some (n * 10 + (c.toNat - 48)) else none) (some 0)

/-- Python `int(s)` on an already-stripped string (sign + decimal digits). -/
def pyIntParse (s : String) : Option Int :=
  match s.toList with
  | '-' :: rest => (digitsToNat? rest).map (fun n => -(n : Int))
  | '+' :: rest => (digitsToNat? rest).map (fun n => (n : Int))
  | l => (digitsToNat? l).map (fun n => (n : Int))

/-- `page_builder._parse_px`: ints (and bools, which Python counts as ints)
pass through, strings are parsed after stripping `px`/`em`; a non-numeric
remainder raises `ValueError`; other values yield `None`. -/
def parsePx : Option PyVal → Except PyErr (Option Int)
  | none => .ok none
  | some (.int n) => .ok (some n)
  | some (.bool b) => .ok (some (cond b 1 0))
  | some (.num100 k) => .ok (some (k / 100))
  | some (.str s) =>
      let s1 := (((s.replace "px" "").replace "em" "").trim)
      let s2 := if s1 = "" then "0" else s1
      match pyIntParse s2 with
      | some n => .ok (some n)
      | none => .error (.valueError s2)
  | some _ => .ok none

/-- Python `str.lower`, for the ASCII range plus the Norwegian letters that
occur in this code base (other characters are left unchanged). -/
def pyLowerChar (c : Char) : Char :=
  if 'A' ≤ c ∧ c ≤ 'Z' then Char.ofNat (c.toNat + 32)
  else if c = 'Æ' then 'æ' else if c = 'Ø' then 'ø' else if c = 'Å' then 'å'
  else c

/-- String-wise lowering. -/
def pyLower (s : String) : String := String.mk (s.toList.map pyLowerChar)

/-- Python `str.split()` (whitespace runs, no empty fields). -/
def splitWs (s : String) : List String :=
  (s.split (fun c => c.isWhitespace)).filter (fun w => w ≠ "")

/-- Is the first list a prefix of the second? -/
def listHasPre : List Char → List Char → Bool
  | [], _ => true
  | _ :: _, [] => false
  | a :: as, b :: bs => a = b && listHasPre as bs

/-- Helper of `strContains`: does the needle occur in the remaining hay? -/
def strContainsAux (needle : List Char) : List Char → Bool
  | [] => listHasPre needle []
  | b :: bs => listHasPre needle (b :: bs) || strContainsAux needle bs

/-- `needle in hay` on strings. -/
def strContains (hay needle : String) : Bool :=
  strContainsAux needle.toList hay.toList

/-- The `img_map` dict: filename keys and (when present) original-index keys,
in insertion order, later entries overwriting earlier ones in place. -/
abbrev ImgMap := List (Sum String Int × UploadedImg)

/-- Dict update on an `ImgMap`. -/
def imSet (m : ImgMap) (k : Sum String Int) (v : UploadedImg) : ImgMap :=
  if (m.find? (fun kv => kv.1 = k)).isSome then
    m.map (fun kv => if kv.1 = k then (k, v) else kv)
  else m ++ [(k, v)]

/-- Dict lookup on an `ImgMap`. -/
def imGet (m : ImgMap) (k : Sum String Int) : Option UploadedImg :=
  (m.find? (fun kv => kv.1 = k)).map (·.2)

/-- The `img_map` construction loop of `page_builder.build_page_content`. -/
def mkImgMap (uploaded : List UploadedImg) : ImgMap :=
  uploaded.foldl (fun m img =>
    let m := imSet m (.inl (img.filename.getD "")) img
    match img.original_index with
    | some i => imSet m (.inr i) img
    | none => m) []

/-- `img["url"]` (raises `KeyError` when absent). -/
def imgUrlOf (img : UploadedImg) : PBM String :=
  match img.url with
  | some u => pure u
  | none => throw (.keyError "url")

/-- `page_builder._get_image_url`. -/
def getImageUrl (m : ImgMap) (description : String) (index : Int)
    (fallback_w fallback_h : Int) : PBM (String × Int) :=
  match imGet m (.inr index) with
  | some img => do
      let u ← imgUrlOf img
      pure (u, img.id.getD 0)
  | none =>
    let desc_lower := if description ≠ "" then pyLower description else ""
    let words := ((splitWs desc_lower).take 2).filter (fun w => w.length > 3)
    match m.find? (fun kv =>
        match kv.1 with
        | .inl key => words.any (fun w => strContains (pyLower key) w)
        | .inr _ => false) with
    | some kv => do
        let u ← imgUrlOf kv.2
        pure (u, kv.2.id.getD 0)
    | none => pure (placeholderSvg description fallback_w fallback_h, 0)

/-- The logo-column loop of the nested `image-gallery` branch. -/
def buildLogoCols : List ImgSpec → PBM (List String)
  | [] => pure []
  | img :: rest => do
      let alt := img.alt.getD "Logo"
      let url := placeholderSvg alt (img.width.getD 100) (img.height.getD 50)
      let ib ← KB.kbImage url none alt none none none
      let col ← KB.kbColumn [ib] none none none none none
      let xs ← buildLogoCols rest
      pure (col :: xs)

mutual

/-- `page_builder._build_content_item`. -/
def buildContentItem (m : ImgMap) : ContentItem → PBM String
  | .mk f colItems =>
      let t := f.type.getD ""
      if t = "heading" then do
        let size ← match parsePx f.font_size with
          | .ok v => pure v
          | .error e => throw e
        KB.advHeading (f.text.getD "") none (f.level.getD 2) f.color size f.align
          f.font_weight none none none none none
      else if t = "paragraph" then do
        let style : List (String × PyVal) := []
        let style := if opvTruthy f.color then
          style ++ [("color", .dict [("text", f.color.getD (.str ""))])] else style
        let style := if opvTruthy f.font_size then
          style ++ [("typography", .dict [("fontSize", f.font_size.getD (.str ""))])] else style
        pure (GB.paragraph (f.text.getD "") f.align none none none false
          (if !style.isEmpty then some (.dict style) else none))
      else if t = "image" then do
        let alt := f.alt.getD "Bilde"
        let url ← match f.url with
          | some u => if u ≠ "" then pure u else
              do pure (← getImageUrl m alt (-1) (f.width.getD 800) (f.height.getD 400)).1
          | none => do pure (← getImageUrl m alt (-1) (f.width.getD 800) (f.height.getD 400)).1
        KB.kbImage url none alt none none none
      else if t = "buttons" then do
        let btn_data := f.btnItems.map (fun btn =>
          ({ text := some (btn.text.getD "Knapp"),
             link := some (btn.url.getD "#"),
             background := some (btn.bg_color.getD (.str "#c8a97e")),
             color := some (btn.text_color.getD (.str "#ffffff")),
             border_radius := some (btn.border_radius.getD (.int 4)) } : KBtn))
        KB.advBtn btn_data none (f.align.getD "center")
      else if t = "list" then
        pure (GB.listBlock f.strItems (f.ordered.getD false))
      else if t = "spacer" then
        KB.kbSpacer (f.height.getD 40) none
      else if t = "separator" then
        pure (GB.separator "default" none)
      else if t = "quote" then
        pure (GB.quote (f.text.getD "") f.citation none)
      else if t = "icon_list" then
        KB.iconList (f.strItems.map (fun i => ((none : Option String), some i))) none "fe_check" none
      else if t = "image-gallery" then
        if !f.images.isEmpty then do
          let cols := min (f.images.length : Int) 6
          let col_blocks ← buildLogoCols f.images
          KB.rowLayout col_blocks none cols "equal" none none none none
            (some [20, 20, 15, 15]) none none (some "full") none (some "middle")
        else pure ("<!-- Unknown: " ++ t ++ " -->")
      else if t = "columns" then do
        let num_cols := f.columns.getD (colItems.length : Int)
        let col_blocks ← buildNestedCols m colItems
        KB.rowLayout col_blocks none num_cols "equal" none none none none
          (some [20, 20, 15, 15]) none none (some "full") none (some "middle")
      else pure ("<!-- Unknown: " ++ t ++ " -->")

/-- `[_build_content_item(c, img_map) for c in cs]`. -/
def buildList (m : ImgMap) : List ContentItem → PBM (List String)
  | [] => pure []
  | c :: rest => do
      let s ← buildContentItem m c
      let xs ← buildList m rest
      pure (s :: xs)

/-- The nested-columns loop of `page_builder._build_content_item`. -/
def buildNestedCols (m : ImgMap) : List (List ContentItem) → PBM (List String)
  | [] => pure []
  | g :: rest => do
      let inner ← buildList m g
      let col ← KB.kbColumn inner none none none none none
      let xs ← buildNestedCols m rest
      pure (col :: xs)

end

end PB

namespace PB

/-- `page_builder._build_hero`. -/
def buildHero (m : ImgMap) (s : Sect) : PBM String := do
  let bg := s.background.getD {}
  let inner_blocks ← buildList m s.content
  let r ← (if bg.type = some "image" then do
      let iu ← getImageUrl m (bg.value.getD "hero background") 0 1920 800
      pure ((some iu.1 : Option String), (none : Option String))
    else if bg.type = some "color" then
      pure (none, some (bg.value.getD "#1a1a2e"))
    else if (bg.value.getD "").startsWith "#" then
      pure (none, bg.value)
    else pure (none, none))
  let bg_img_url := r.1
  let bg_color := r.2
  let bg_color := if !osTruthy bg_color ∧ !osTruthy bg_img_url then some "#1a1a2e" else bg_color
  let col ← KB.kbColumn inner_blocks none none none none (some (s.align.getD "center"))
  KB.rowLayout [col] none 1 "equal"
    (bg_color.map .str) bg_img_url
    (if osTruthy bg_img_url then some (.num100 (bg.overlay_opacity.getD 50)) else none)
    (if osTruthy bg_img_url then some (.str (bg.overlay_color.getD "#000000")) else none)
    (some [80, 80, 30, 30]) none (some (s.min_height.getD 600)) (some "full") none (some "middle")

/-- The column loop of `page_builder._build_columns_section`. -/
def buildSectionItemCols (m : ImgMap) : List SectionItem → PBM (List String)
  | [] => pure []
  | it :: rest => do
      let inner ← buildList m it.content
      let col ← KB.kbColumn inner none none none none (some "center")
      let xs ← buildSectionItemCols m rest
      pure (col :: xs)

/-- `page_builder._build_columns_section`. -/
def buildColumnsSection (m : ImgMap) (s : Sect) : PBM String := do
  let items := s.items
  let num_cols := s.columns.getD (if items.length ≠ 0 then (items.length : Int) else 3)
  let col_blocks ← buildSectionItemCols m items
  KB.rowLayout col_blocks none num_cols "equal" s.background_color none none none
    (some [60, 60, 30, 30]) none none (some "full") none (some "middle")

/-- `page_builder._build_text_section`. -/
def buildTextSection (m : ImgMap) (s : Sect) : PBM String := do
  let inner ← buildList m s.content
  let col ← KB.kbColumn inner none none none none (some (s.align.getD "center"))
  KB.rowLayout [col] none 1 "equal" s.background_color none none none
    (some [60, 60, 30, 30]) none none (some "full") none (some "middle")

/-- `page_builder._build_media_text`. -/
def buildMediaText (m : ImgMap) (s : Sect) : PBM String := do
  let inner ← buildList m s.content
  let media_desc := s.media_description.getD "image"
  let iu ← getImageUrl m media_desc (-1) 600 400
  let pos := s.media_position.getD "left"
  let ib ← KB.kbImage iu.1 none media_desc (some iu.2) none none
  let img_col ← KB.kbColumn [ib] none none none none none
  let text_col ← KB.kbColumn inner none none none none none
  let cols := if pos = "left" then [img_col, text_col] else [text_col, img_col]
  KB.rowLayout cols none 2 "equal" none none none none
    (some [60, 60, 30, 30]) none none (some "full") none (some "middle")

/-- `page_builder._build_testimonial`. -/
def buildTestimonial (s : Sect) : PBM String := do
  let tc := if !s.content.isEmpty then
      s.content.foldl (fun tc c =>
        if c.f.type = some "paragraph" then (c.f.text.getD tc.1, tc.2)
        else if c.f.type = some "heading" then (tc.1, c.f.text.getD tc.2)
        else tc) (s.text.getD "", s.citation.getD "")
    else (s.text.getD "", s.citation.getD "")
  let items : List TItem := [{ text := some tc.1, name := some tc.2, title := some "" }]
  let tb ← KB.testimonials items none 1 "card"
  let col ← KB.kbColumn [tb] none none none none none
  KB.rowLayout [col] none 1 "equal" none none none none
    (some [60, 60]) none none (some "full") none (some "middle")

/-- `page_builder._build_cta`. -/
def buildCta (m : ImgMap) (s : Sect) : PBM String := do
  let inner ← buildList m s.content
  let col ← KB.kbColumn inner none none none none (some "center")
  KB.rowLayout [col] none 1 "equal" (some (s.background_color.getD (.str "#1a1a2e")))
    none none none (some [80, 80, 30, 30]) none none (some "full") none (some "middle")

/-- The property-card loop of `page_builder._build_gallery`. -/
def buildGalleryItemCols (m : ImgMap) : Nat → List SectionItem → PBM (List String)
  | _, [] => pure []
  | i, it :: rest => do
      let inner ← buildList m it.content
      let inner ← (if inner.isEmpty then do
          let iu ← getImageUrl m ("gallery " ++ toString i) (i : Int) 800 400
          let ib ← KB.kbImage iu.1 none "" (some iu.2) none none
          pure (inner ++ [ib])
        else pure inner)
      let col ← KB.kbColumn inner none none none none none
      let xs ← buildGalleryItemCols m (i + 1) rest
      pure (col :: xs)

/-- The plain-image loop of `page_builder._build_gallery`. -/
def buildGalleryImgCols (m : ImgMap) : Nat → List ContentItem → PBM (List String)
  | _, [] => pure []
  | i, img :: rest => do
      let alt := img.f.alt.getD ("Bilde " ++ toString (i + 1))
      let iu ← getImageUrl m alt (i : Int) (img.f.width.getD 300) (img.f.height.getD 200)
      let ib ← KB.kbImage iu.1 none alt (some iu.2) none none
      let col ← KB.kbColumn [ib] none none none none none
      let xs ← buildGalleryImgCols m (i + 1) rest
      pure (col :: xs)

/-- `page_builder._build_gallery`. -/
def buildGallery (m : ImgMap) (s : Sect) : PBM String := do
  let items := s.items
  let content := s.content
  if !items.isEmpty then do
    let cols := min (items.length : Int) 4
    let col_blocks ← buildGalleryItemCols m 0 items
    KB.rowLayout col_blocks none cols "equal" s.background_color none none none
      (some [40, 40, 15, 15]) none none (some "full") none (some "middle")
  else if !content.isEmpty then do
    let images := content.filter (fun c => c.f.type = some "image")
    let cols := if !images.isEmpty then min (images.length : Int) 4 else 3
    let col_blocks ← buildGalleryImgCols m 0 images
    if !col_blocks.isEmpty then
      KB.rowLayout col_blocks none cols "equal" none none none none
        (some [40, 40, 15, 15]) none none (some "full") none (some "middle")
    else pure ""
  else pure ""

/-- The field-translation loop of `page_builder._build_contact`. -/
def contactFields (fs : List FormField) : List PyVal :=
  fs.map (fun f =>
    let label := f.label.getD ""
    let ftype := f.type.getD "text"
    let ftype := if ftype = "tel" then "text" else ftype
    let width := if ftype ≠ "textarea" then
        PyVal.arr [.str "50", .str "", .str ""]
      else PyVal.arr [.str "100", .str "", .str ""]
    PyVal.dict [("label", .str label), ("type", .str ftype),
      ("required", .bool (f.required.getD false)), ("width", width)])

/-- The content split of `page_builder._build_contact`: non-form items are
built (with an empty `img_map`, as in the source) in order; the last `form`
item's `fields` win. -/
def contactSplit : List ContentItem → PBM (List String × Option (List FormField))
  | [] => pure ([], none)
  | c :: rest =>
      if c.f.type = some "form" then do
        let r ← contactSplit rest
        pure (r.1, match r.2 with
          | some fs => some fs
          | none => some c.f.formFields)
      else do
        let b ← buildContentItem [] c
        let r ← contactSplit rest
        pure (b :: r.1, r.2)

/-- `page_builder._build_contact`. -/
def buildContact (s : Sect) : PBM String := do
  let r ← contactSplit s.content
  let inner := r.1
  let form_fields := r.2
  let fb ← (if (r.2.map (fun l => !l.isEmpty)).getD false then
      KB.formBlock none "post@haugli.no" "Ny henvendelse fra nettsiden" "Send melding"
        (some (contactFields (form_fields.getD [])))
    else
      KB.formBlock none "post@haugli.no" "Ny henvendelse fra nettsiden" "Send melding" none)
  let inner := inner ++ [fb]
  let col ← KB.kbColumn inner none none none none none
  KB.rowLayout [col] none 1 "equal" s.background_color none none none
    (some [60, 60, 30, 30]) none none (some "full") none (some "middle")

/-- `page_builder._build_map`. -/
def buildMap (s : Sect) : PBM String := do
  let address := s.address.getD "Haugesund, Norway"
  let embed :=
    "<!-- wp:html -->\n" ++
    "<div style=\"width:100%;height:400px\">" ++
    "<iframe src=\"https://maps.google.com/maps?q=" ++ address.replace " " "+" ++
    "&output=embed\" width=\"100%\" height=\"400\" style=\"border:0\" allowfullscreen loading=\"lazy\"></iframe>" ++
    "</div>\n" ++
    "<!-- /wp:html -->"
  let col ← KB.kbColumn [embed] none none none none none
  KB.rowLayout [col] none 1 "equal" none none none none
    (some [0, 0]) none none (some "full") none (some "middle")

/-- `page_builder._build_generic`. -/
def buildGeneric (m : ImgMap) (s : Sect) : PBM String := do
  if s.content.isEmpty then pure ""
  else do
    let inner ← buildList m s.content
    let col ← KB.kbColumn inner none none none none none
    KB.rowLayout [col] none 1 "equal" none none none none
      (some [40, 40, 30, 30]) none none (some "full") none (some "middle")

/-- `page_builder._build_section` (the `page_role` argument is accepted and,
as in the source, unused). -/
def buildSection (s : Sect) (m : ImgMap) (page_role : String) : PBM String :=
  let t := s.type.getD "generic"
  if t = "hero" then buildHero m s
  else if t = "columns" ∨ t = "features" ∨ t = "stats" ∨ t = "services" ∨
      t = "team" ∨ t = "about-team" then buildColumnsSection m s
  else if t = "text-section" ∨ t = "content" then buildTextSection m s
  else if t = "media-text" then buildMediaText m s
  else if t = "quote" ∨ t = "testimonial" then buildTestimonial s
  else if t = "cta" ∨ t = "call-to-action" then buildCta m s
  else if t = "image-gallery" ∨ t = "gallery" ∨ t = "properties-grid" then buildGallery m s
  else if t = "contact" ∨ t = "contact-form" then buildContact s
  else if t = "map" then buildMap s
  else buildGeneric m s

/-- The section loop of `page_builder.build_page_content`: footers are
skipped, empty blocks are dropped. -/
def buildSections (m : ImgMap) (page_role : String) : List Sect → PBM (List String)
  | [] => pure []
  | s :: rest =>
      if s.type = some "footer" then buildSections m page_role rest
      else do
        let block ← buildSection s m page_role
        let xs ← buildSections m page_role rest
        pure (if block ≠ "" then block :: xs else xs)

/-- `page_builder.build_page_content`. -/
def buildPageContent (layout : Layout) (uploaded_images : List UploadedImg)
    (page_role : String) : PBM String := do
  let img_map := mkImgMap uploaded_images
  let blocks ← buildSections img_map page_role layout.sections
  pure (String.intercalate "\n\n" blocks)

end PB

/-!  ## Claim-support definitions

Concrete inputs for counterexamples and witnesses, and the spec-worded
serializer used by the refinement statement of claim C4. -/

/-- A heading content item with only `type` and `text`. -/
def hItem (txt : String) : ContentItem := .mk { type := some "heading", text := some txt } []

/-- A paragraph content item with only `type` and `text`. -/
def pItem (txt : String) : ContentItem := .mk { type := some "paragraph", text := some txt } []

/-- One CSS declaration of the spec's serializer contract: emitted exactly
when the property is present with a truthy value. -/
def cssDecl (name : String) (v : Option PyVal) : List String :=
  match v with
  | some v => if pvTruthy v then [name ++ ":" ++ pyStr v] else []
  | none => []

/-- The serializer contract as worded by the spec (§4.1), amended for C4:
the declarations of the present (and non-empty) properties, one each, in the
fixed canonical order border-color, border-width, border-radius, color,
background-color, min-height, padding-top/right/bottom/left, font-size;
padding sides are emitted exactly when present in the padding mapping. -/
def cssPartsSpec (border_color border_width border_radius color
    background_color min_height : Option PyVal) (padding : Option Pad)
    (font_size : Option PyVal) : List String :=
  cssDecl "border-color" border_color ++
  cssDecl "border-width" border_width ++
  cssDecl "border-radius" border_radius ++
  cssDecl "color" color ++
  cssDecl "background-color" background_color ++
  cssDecl "min-height" min_height ++
  (match padding with
   | some p => (["top", "right", "bottom", "left"].filter (fun side => dhas p side)).map
       (fun side => "padding-" ++ side ++ ":" ++ pyStr ((dget p side).getD (.str "")))
   | none => []) ++
  cssDecl "font-size" font_size

/-- The layout of C1's counterexample: one unnamed section with a paragraph
(non-empty output), followed by a trailing section that converts to `""`. -/
def c1Layout : Layout :=
  { sections := [{ content := [pItem "Hei"] }, { type := some "tom" }] }

/-- A two-section layout whose last section emits non-empty output (witness
input for C1's amended theorem). -/
def c1WitnessLayout : Layout :=
  { sections := [{ content := [pItem "En"] }, { content := [pItem "To"] }] }

/-- C3's counterexample: a hero section carrying only the flat
`background_color` string. -/
def c3HeroSec : Sect := { type := some "hero", background_color := some (.str "#ff0000") }

/-- A cta section carrying only the flat `background_color` string. -/
def c3CtaSec : Sect := { type := some "cta", background_color := some (.str "#00ff00") }

/-- The content list of C5's spec example: `[H1, P1, P2, H2, P3]`. -/
def c5Content : List ContentItem :=
  [hItem "H1", pItem "P1", pItem "P2", hItem "H2", pItem "P3"]

/-- A heading item carrying an explicit `align: "left"` (witness for C6). -/
def c6Item : ContentItem :=
  .mk { type := some "heading", text := some "T", align := some "left" } []

/-- Uid stream of C2's evaluation. -/
def c2gen : Uids := fun _ => "abc123"

/-- Uid stream of C9's counterexample: the draws of one shared random source;
the first compile consumes draws 0–2, the repeat compile draws from 3 on. -/
def c9gen : Uids := fun k => if k < 3 then "aaaaaa" else "bbbbbb"

/-- C9's layout: one text section with one heading; compiling it mints a
fresh identifier for the heading, the column and the row. -/
def c9Layout : Layout :=
  { sections := [{ type := some "text-section", content := [hItem "Hei"] }] }

/-- A group starts with a heading item. -/
def StartsHeading (g : List ContentItem) : Prop :=
  ∃ c t, g = c :: t ∧ Converter.isHeadingItem c = true

/-- The block/spacer interleaving of `convert_layout`, expressed over the
per-section conversion results: a non-empty block is emitted, followed by a
30px spacer whenever more sections follow it in the input. -/
def spacerAssemble : List String → List String
  | [] => []
  | b :: rest =>
      (if b ≠ "" then b :: (if rest.isEmpty then [] else [Converter.spacer 30]) else []) ++
        spacerAssemble rest

/-!  ## Theorems -/

/-- C8: for every dim_ratio in 0..100, the cover block's CSS modifier value
is a multiple of 10 at distance at most 5 from dim_ratio — i.e. a nearest
multiple of 10 — and in particular 54 maps to 50 and 55 maps to 60. -/
theorem c8_dim_ratio_rounding (d : Nat) (h : d ≤ 100) :
    Converter.coverDimClass (d : Int) % 10 = 0 ∧
    ((d : Int) - Converter.coverDimClass (d : Int)).natAbs ≤ 5 ∧
    Converter.coverDimClass 54 = 50 ∧ Converter.coverDimClass 55 = 60 := by
  have key : ∀ m : Nat, m < 101 → Converter.coverDimClass (m : Int) % 10 = 0 ∧
      ((m : Int) - Converter.coverDimClass (m : Int)).natAbs ≤ 5 := by decide
  obtain ⟨h1, h2⟩ := key d (by omega)
  exact ⟨h1, h2, by decide, by decide⟩

/-- Witness for C8 at dim_ratio 54. -/
theorem c8_dim_ratio_rounding_witness :
    (54 : Nat) ≤ 100 ∧
    (Converter.coverDimClass ((54 : Nat) : Int) % 10 = 0 ∧
     (((54 : Nat) : Int) - Converter.coverDimClass ((54 : Nat) : Int)).natAbs ≤ 5 ∧
     Converter.coverDimClass 54 = 50 ∧ Converter.coverDimClass 55 = 60) :=
  ⟨by decide, c8_dim_ratio_rounding 54 (by decide)⟩

/-- C3 counterexample: a hero section carrying only the flat
`background_color: "#ff0000"` is emitted with the hardcoded default
`#1a1a2e` as its background, not with the flat color. -/
theorem c3_counterexample :
    Converter.convertSection c3HeroSec =
      .ok (Converter.group [] (some (.str "#1a1a2e")) none
        (some [("top", .str "80px"), ("bottom", .str "80px"),
               ("left", .str "40px"), ("right", .str "40px")])
        (some (.str "600px")) none (some "full") "constrained") ∧
    (Converter.convertSection c3HeroSec).toOption ≠
      some (Converter.group [] (some (.str "#ff0000")) none
        (some [("top", .str "80px"), ("bottom", .str "80px"),
               ("left", .str "40px"), ("right", .str "40px")])
        (some (.str "600px")) none (some "full") "constrained") := by
  exact ⟨rfl, by decide⟩

/-- C3 amended: the cta and footer converters accept the flat
`background_color` encoding (used whenever the structured `background` object
supplies no truthy `value`), while the hero converter reads only the
structured object and falls back to the hardcoded `#1a1a2e`, ignoring the
flat string. -/
theorem c3_background_fallbacks (s : Sect) (c : String)
    (hbg : s.background = none) (hc : s.background_color = some (.str c))
    (hne : c ≠ "") :
    Converter.ctaBgColor s = .str c ∧
    Converter.footerBgColor s = .str c ∧
    Converter.heroBgColor (s.background.getD {}) = "#1a1a2e" := by
  unfold Converter.ctaBgColor Converter.footerBgColor Converter.heroBgColor
  rw [hbg, hc]
  simp [osTruthy, opvTruthy, pvTruthy, hne]

/-- Witness for C3's amended theorem at a concrete cta section. -/
theorem c3_background_fallbacks_witness :
    (c3CtaSec.background = none ∧ c3CtaSec.background_color = some (.str "#00ff00") ∧
      "#00ff00" ≠ "") ∧
    (Converter.ctaBgColor c3CtaSec = .str "#00ff00" ∧
     Converter.footerBgColor c3CtaSec = .str "#00ff00" ∧
     Converter.heroBgColor (c3CtaSec.background.getD {}) = "#1a1a2e") :=
  ⟨⟨rfl, rfl, by decide⟩, c3_background_fallbacks c3CtaSec "#00ff00" rfl rfl (by decide)⟩

/-- C6: a content item with an explicit `align: "left"` is left untouched by
section-alignment propagation (for any section default, `"center"`
included), and its rendered class list contains the left-alignment class and
no center-alignment class, for headings and paragraphs alike. -/
theorem c6_item_align_overrides_section (i : ContentItem) (sAlign : Option String)
    (hl : i.f.align = some "left") :
    Converter.applySectionAlign i sAlign = i ∧
    ("has-text-align-left" ∈ Converter.headingClasses i.f.color i.f.align ∧
     "has-text-align-center" ∉ Converter.headingClasses i.f.color i.f.align) ∧
    ("has-text-align-left" ∈ Converter.paragraphClasses i.f.color i.f.align ∧
     "has-text-align-center" ∉ Converter.paragraphClasses i.f.color i.f.align) := by
  refine ⟨?_, ?_, ?_⟩
  · unfold Converter.applySectionAlign
    rw [hl]
    by_cases hs : osTruthy sAlign <;> simp [hs, osTruthy]
  · rw [hl]
    unfold Converter.headingClasses
    by_cases hc : opvTruthy i.f.color <;> simp [hc, osTruthy]
  · rw [hl]
    unfold Converter.paragraphClasses
    by_cases hc : opvTruthy i.f.color <;> simp [hc, osTruthy]

/-- Witness for C6 at a concrete left-aligned heading under a "center"
section default. -/
theorem c6_item_align_overrides_section_witness :
    c6Item.f.align = some "left" ∧
    (Converter.applySectionAlign c6Item (some "center") = c6Item ∧
     ("has-text-align-left" ∈ Converter.headingClasses c6Item.f.color c6Item.f.align ∧
      "has-text-align-center" ∉ Converter.headingClasses c6Item.f.color c6Item.f.align) ∧
     ("has-text-align-left" ∈ Converter.paragraphClasses c6Item.f.color c6Item.f.align ∧
      "has-text-align-center" ∉ Converter.paragraphClasses c6Item.f.color c6Item.f.align)) :=
  ⟨rfl, c6_item_align_overrides_section c6Item (some "center") rfl⟩

/-- `padColGroups` appends exactly enough empty groups to reach the target. -/
theorem padColGroups_replicate (n : Nat) : ∀ (gs : List (List ContentItem)) (k : Int),
    (k - gs.length).toNat = n →
    Converter.padColGroups gs k = gs ++ List.replicate n ([] : List ContentItem) := by
  induction n with
  | zero =>
      intro gs k h
      rw [Converter.padColGroups]
      split
      · omega
      · simp
  | succ n ih =>
      intro gs k h
      rw [Converter.padColGroups]
      split
      · rw [ih (gs ++ [[]]) k (by simp; omega)]
        simp [List.replicate_succ]
      · omega

/-- C10: for a footer requesting k > 1 columns, a partition with fewer than k
groups is padded with trailing empty groups to exactly k columns, and a
partition with at least k groups is emitted unchanged (no truncation). -/
theorem c10_footer_column_padding (content : List ContentItem) (k : Int) (hk : 1 < k) :
    (((Converter.footerColGroups content).length : Int) < k →
      Converter.padColGroups (Converter.footerColGroups content) k =
        Converter.footerColGroups content ++
          List.replicate (k - (Converter.footerColGroups content).length).toNat
            ([] : List ContentItem) ∧
      (((Converter.padColGroups (Converter.footerColGroups content) k).length : Int) = k)) ∧
    (k ≤ ((Converter.footerColGroups content).length : Int) →
      Converter.padColGroups (Converter.footerColGroups content) k =
        Converter.footerColGroups content) := by
  constructor
  · intro h
    have he := padColGroups_replicate (k - (Converter.footerColGroups content).length).toNat
      (Converter.footerColGroups content) k rfl
    refine ⟨he, ?_⟩
    rw [he]
    simp
    omega
  · intro h
    have he := padColGroups_replicate 0 (Converter.footerColGroups content) k (by omega)
    simpa using he

/-- Witness for C10: the example content with k = 3 is padded to 3 columns. -/
theorem c10_footer_column_padding_witness :
    (1 : Int) < 3 ∧
    ((((Converter.footerColGroups c5Content).length : Int) < 3 →
      Converter.padColGroups (Converter.footerColGroups c5Content) 3 =
        Converter.footerColGroups c5Content ++
          List.replicate ((3 : Int) - (Converter.footerColGroups c5Content).length).toNat
            ([] : List ContentItem) ∧
      (((Converter.padColGroups (Converter.footerColGroups c5Content) 3).length : Int) = 3)) ∧
    (3 ≤ ((Converter.footerColGroups c5Content).length : Int) →
      Converter.padColGroups (Converter.footerColGroups c5Content) 3 =
        Converter.footerColGroups c5Content)) :=
  ⟨by decide, c10_footer_column_padding c5Content 3 (by decide)⟩

/-- The footer scan flattens back to the input. -/
theorem footerAux_join : ∀ (l : List ContentItem) (groups : List (List ContentItem))
    (current : List ContentItem),
    (Converter.footerColGroupsAux l groups current).join = groups.join ++ (current ++ l) := by
  intro l
  induction l with
  | nil =>
      intro groups current
      unfold Converter.footerColGroupsAux
      split
      · simp
      · rename_i h
        have : current = [] := by
          cases current with
          | nil => rfl
          | cons a as => simp at h
        simp [this]
  | cons c rest ih =>
      intro groups current
      unfold Converter.footerColGroupsAux
      split
      · rw [ih]
        simp
      · rw [ih]
        simp

/-- Every emitted footer group is non-empty. -/
theorem footerAux_ne : ∀ (l : List ContentItem) (groups : List (List ContentItem))
    (current : List ContentItem),
    (∀ g ∈ groups, g ≠ []) →
    ∀ g ∈ Converter.footerColGroupsAux l groups current, g ≠ [] := by
  intro l
  induction l with
  | nil =>
      intro groups current hg
      unfold Converter.footerColGroupsAux
      split
      · rename_i h
        intro g hmem
        rcases List.mem_append.mp hmem with h1 | h1
        · exact hg g h1
        · rcases List.mem_singleton.mp h1 with rfl
          intro habs
          rw [habs] at h
          simp at h
      · exact hg
  | cons c rest ih =>
      intro groups current hg
      unfold Converter.footerColGroupsAux
      split
      · rename_i h
        refine ih (groups ++ [current]) [c] ?_
        intro g hmem
        rcases List.mem_append.mp hmem with h1 | h1
        · exact hg g h1
        · rcases List.mem_singleton.mp h1 with rfl
          intro habs
          rw [habs] at h
          simp at h
      · exact ih groups (current ++ [c]) hg

/-- Every footer group after the first starts with a heading (a leading
heading never opens a fresh group from an empty current group). -/
theorem footerAux_tail_heads : ∀ (l : List ContentItem) (groups : List (List ContentItem))
    (current : List ContentItem),
    (∀ g ∈ groups.drop 1, StartsHeading g) →
    (groups ≠ [] → StartsHeading current) →
    ∀ g ∈ (Converter.footerColGroupsAux l groups current).drop 1, StartsHeading g := by
  intro l
  induction l with
  | nil =>
      intro groups current hdrop hcur
      unfold Converter.footerColGroupsAux
      split
      · cases groups with
        | nil => simp
        | cons g0 gs =>
            intro g hmem
            simp only [List.cons_append, List.drop_one, List.tail_cons] at hmem
            rcases List.mem_append.mp hmem with h1 | h1
            · exact hdrop g (by simpa using h1)
            · rcases List.mem_singleton.mp h1 with rfl
              exact hcur (by simp)
      · exact hdrop
  | cons c rest ih =>
      intro groups current hdrop hcur
      unfold Converter.footerColGroupsAux
      split
      · rename_i h
        refine ih (groups ++ [current]) [c] ?_ ?_
        · cases groups with
          | nil => simp
          | cons g0 gs =>
              intro g hmem
              simp only [List.cons_append, List.drop_one, List.tail_cons] at hmem
              rcases List.mem_append.mp hmem with h1 | h1
              · exact hdrop g (by simpa using h1)
              · rcases List.mem_singleton.mp h1 with rfl
                exact hcur (by simp)
        · intro _
          exact ⟨c, [], rfl, h.1⟩
      · rename_i h
        refine ih groups (current ++ [c]) hdrop ?_
        intro hne
        rcases hcur hne with ⟨c0, t0, rfl, hc0⟩
        exact ⟨c0, t0 ++ [c], by simp, hc0⟩

/-- No footer group carries a heading after its first element. -/
theorem footerAux_tails_no_heading : ∀ (l : List ContentItem)
    (groups : List (List ContentItem)) (current : List ContentItem),
    (∀ g ∈ groups, ∀ x ∈ g.drop 1, ¬ Converter.isHeadingItem x = true) →
    (∀ x ∈ current.drop 1, ¬ Converter.isHeadingItem x = true) →
    ∀ g ∈ Converter.footerColGroupsAux l groups current,
      ∀ x ∈ g.drop 1, ¬ Converter.isHeadingItem x = true := by
  intro l
  induction l with
  | nil =>
      intro groups current hg hc
      unfold Converter.footerColGroupsAux
      split
      · intro g hmem
        rcases List.mem_append.mp hmem with h1 | h1
        · exact hg g h1
        · rcases List.mem_singleton.mp h1 with rfl
          exact hc
      · exact hg
  | cons c rest ih =>
      intro groups current hg hc
      unfold Converter.footerColGroupsAux
      split
      · refine ih (groups ++ [current]) [c] ?_ (by simp)
        intro g hmem
        rcases List.mem_append.mp hmem with h1 | h1
        · exact hg g h1
        · rcases List.mem_singleton.mp h1 with rfl
          exact hc
      · rename_i h
        refine ih groups (current ++ [c]) hg ?_
        cases current with
        | nil => simp
        | cons a as =>
            intro x hx
            simp only [List.cons_append, List.drop_one, List.tail_cons] at hx
            rcases List.mem_append.mp hx with h1 | h1
            · exact hc x (by simpa using h1)
            · rcases List.mem_singleton.mp h1 with rfl
              intro habs
              exact absurd (And.intro habs (by simp)) h

/-- C5: the footer multi-column partition groups content by a left-to-right
scan that opens a new group exactly at a heading met while the current group
is non-empty.  Concretely `[H1, P1, P2, H2, P3]` partitions into
`[[H1, P1, P2], [H2, P3]]`; in general the groups flatten back to the input
in order, every group is non-empty, every group after the first starts with a
heading (so a leading heading opens no extra group), and no heading occurs
after the first position of a group — which together pin the boundaries to
exactly the positive-index headings. -/
theorem c5_footer_grouping :
    Converter.footerColGroups c5Content =
      [[hItem "H1", pItem "P1", pItem "P2"], [hItem "H2", pItem "P3"]] ∧
    ∀ (l : List ContentItem),
      (Converter.footerColGroups l).join = l ∧
      (∀ g ∈ Converter.footerColGroups l, g ≠ []) ∧
      (∀ g ∈ (Converter.footerColGroups l).drop 1, StartsHeading g) ∧
      (∀ g ∈ Converter.footerColGroups l, ∀ x ∈ g.drop 1,
        ¬ Converter.isHeadingItem x = true) := by
  refine ⟨rfl, fun l => ⟨?_, ?_, ?_, ?_⟩⟩
  · simpa using footerAux_join l [] []
  · exact footerAux_ne l [] [] (by simp)
  · exact footerAux_tail_heads l [] [] (by simp) (by simp)
  · exact footerAux_tails_no_heading l [] [] (by simp) (by simp)

/-- Witness for C5: the general part applied to the example content. -/
theorem c5_footer_grouping_witness :
    (Converter.footerColGroups c5Content).join = c5Content ∧
    StartsHeading [hItem "H2", pItem "P3"] :=
  ⟨(c5_footer_grouping.2 c5Content).1,
   (c5_footer_grouping.2 c5Content).2.2.1 [hItem "H2", pItem "P3"]
     (by rw [c5_footer_grouping.1]; exact List.mem_singleton.mpr rfl)⟩

/-- One conditional append of `_build_css` equals appending the spec's
declaration list. -/
theorem cssPart_append (parts : List String) (name : String) (v : Option PyVal) :
    (if opvTruthy v then parts ++ [name ++ ":" ++ pyStr (v.getD (.str ""))] else parts) =
    parts ++ cssDecl name v := by
  cases v with
  | none => simp [opvTruthy, cssDecl]
  | some w => by_cases h : pvTruthy w <;> simp [opvTruthy, cssDecl, h]

/-- `cssDecl` in if-form. -/
theorem cssDecl_eq (name : String) (v : Option PyVal) :
    cssDecl name v = if opvTruthy v then [name ++ ":" ++ pyStr (v.getD (.str ""))] else [] := by
  cases v with
  | none => simp [cssDecl, opvTruthy]
  | some w => simp [cssDecl, opvTruthy]

/-- The padding loop of `_build_css` equals appending the spec's padding
declarations. -/
theorem cssPad_append (parts : List String) (padding : Option Pad) :
    (if Converter.padTruthy padding then
      (["top", "right", "bottom", "left"].foldl (fun acc side =>
        if dhas (padding.getD []) side then
          acc ++ ["padding-" ++ side ++ ":" ++ pyStr ((dget (padding.getD []) side).getD (.str ""))]
        else acc) parts)
    else parts) =
    parts ++ (match padding with
      | some p => (["top", "right", "bottom", "left"].filter (fun side => dhas p side)).map
          (fun side => "padding-" ++ side ++ ":" ++ pyStr ((dget p side).getD (.str "")))
      | none => []) := by
  cases padding with
  | none => simp [Converter.padTruthy]
  | some p =>
      by_cases hp : p.isEmpty
      · have hnil : p = [] := by
          cases p with
          | nil => rfl
          | cons a as => simp at hp
        subst hnil
        simp [Converter.padTruthy, dhas]
      · have hne : p ≠ [] := by
          cases p with
          | nil => simp at hp
          | cons a as => simp
        simp only [Converter.padTruthy, Option.map_some, Option.getD_some, hp,
          Bool.not_false, if_true, List.foldl]
        by_cases h1 : dhas p "top" <;> by_cases h2 : dhas p "right" <;>
          by_cases h3 : dhas p "bottom" <;> by_cases h4 : dhas p "left" <;>
          simp [h1, h2, h3, h4, hne]

/-- `_build_css` produces exactly the spec-worded declaration list. -/
theorem buildCssParts_eq_spec (border_color border_width border_radius color
    background_color min_height : Option PyVal) (padding : Option Pad)
    (font_size : Option PyVal) :
    Converter.buildCssParts border_color border_width border_radius color
      background_color min_height padding font_size =
      cssPartsSpec border_color border_width border_radius color
        background_color min_height padding font_size := by
  by_cases b1 : opvTruthy border_color <;>
    by_cases b2 : opvTruthy border_width <;>
    by_cases b3 : opvTruthy border_radius <;>
    by_cases b4 : opvTruthy color <;>
    by_cases b5 : opvTruthy background_color <;>
    by_cases b6 : opvTruthy min_height <;>
    by_cases b7 : opvTruthy font_size <;>
    simp [Converter.buildCssParts, cssPartsSpec, b1, b2, b3, b4, b5, b6, b7,
      cssDecl_eq, cssPad_append, -List.foldl_cons, -List.foldl_nil]

/-- C4 amended: the serializer emits exactly the truthy (present and
non-empty) scalar properties plus the padding sides present in the padding
mapping, one declaration each, in the fixed canonical order, joined by `;`. -/
theorem c4_css_serializer (border_color border_width border_radius color
    background_color min_height : Option PyVal) (padding : Option Pad)
    (font_size : Option PyVal) :
    Converter.buildCssParts border_color border_width border_radius color
      background_color min_height padding font_size =
      cssPartsSpec border_color border_width border_radius color
        background_color min_height padding font_size ∧
    Converter.buildCss border_color border_width border_radius color
      background_color min_height padding font_size =
      String.intercalate ";" (cssPartsSpec border_color border_width border_radius color
        background_color min_height padding font_size) :=
  ⟨buildCssParts_eq_spec border_color border_width border_radius color
      background_color min_height padding font_size,
   by rw [Converter.buildCss, buildCssParts_eq_spec]⟩

/-- C4 counterexample: the `color` property present as the (non-null) empty
string is dropped by the serializer, so the output does not consist of
exactly the present properties. -/
theorem c4_counterexample :
    (some (PyVal.str "") ≠ (none : Option PyVal)) ∧
    Converter.buildCssParts none none none (some (.str "")) none none none none = [] ∧
    Converter.buildCss none none none (some (.str "")) none none none none = "" :=
  ⟨Option.some_ne_none (PyVal.str ""), rfl, rfl⟩

/-- Two appends with distinct fixed leads are distinct strings. -/
theorem append_ne_append {a b : String} (x y : String)
    (hlen : a.data.length ≤ b.data.length)
    (hne : a.data ≠ b.data.take a.data.length) : a ++ x ≠ b ++ y := by
  intro h
  have hd := congrArg String.data h
  rw [String.data_append, String.data_append] at hd
  have ht := congrArg (List.take a.data.length) hd
  rw [List.take_left, List.take_append_of_le_length hlen] at ht
  exact hne ht

/-- An append with a short lead differs from a fixed literal. -/
theorem append_ne_lit {a : String} (x : String) (b : String)
    (hne : a.data ≠ b.data.take a.data.length) : a ++ x ≠ b := by
  intro h
  have hd := congrArg String.data h
  rw [String.data_append] at hd
  have ht := congrArg (List.take a.data.length) hd
  rw [List.take_left] at ht
  exact hne ht

/-- An absent property contributes no declaration. -/
theorem cssDecl_none (name : String) : cssDecl name none = [] := rfl

/-- Inversion of membership in a spec declaration list. -/
theorem mem_cssDecl {x name : String} {v : Option PyVal} (h : x ∈ cssDecl name v) :
    ∃ w, v = some w ∧ pvTruthy w = true ∧ x = name ++ ":" ++ pyStr w := by
  cases v with
  | none => simp [cssDecl] at h
  | some w =>
      by_cases hw : pvTruthy w
      · simp [cssDecl, hw] at h
        exact ⟨w, rfl, hw, h⟩
      · simp [cssDecl, hw] at h

/-- C7 amended: in the group container, the `has-background` class appears
exactly when `bg_color` is truthy (non-null and non-empty), and so does the
inline `background-color` declaration: each appears iff the other does;
a null or empty `bg_color` produces neither. -/
theorem c7_group_background_consistency (bg_color text_color : Option PyVal)
    (padding : Option Pad) (min_height border_radius : Option PyVal)
    (align : Option String) :
    ("has-background" ∈ Converter.groupClasses bg_color text_color align ↔
      opvTruthy bg_color = true) ∧
    ((∃ v, bg_color = some v ∧
        ("background-color:" ++ pyStr v) ∈
          Converter.groupCssParts bg_color text_color padding min_height border_radius) ↔
      opvTruthy bg_color = true) := by
  have halign : ∀ z : String, "align" ++ z ≠ "has-background" :=
    fun z => append_ne_lit z "has-background" (by decide)
  have hspec : Converter.groupCssParts bg_color text_color padding min_height border_radius =
      cssPartsSpec none none border_radius text_color bg_color min_height padding none := by
    unfold Converter.groupCssParts
    exact buildCssParts_eq_spec none none border_radius text_color bg_color min_height padding none
  constructor
  · by_cases hb : opvTruthy bg_color
    · simp [Converter.groupClasses, hb]
    · by_cases ha : osTruthy align <;> by_cases htc : opvTruthy text_color <;>
        simp [Converter.groupClasses, hb, ha, htc, Ne.symm (halign (align.getD ""))]
  · rw [hspec]
    constructor
    · rintro ⟨v, hv, hmem⟩
      subst hv
      by_contra hb
      have hpv : pvTruthy v = false := by
        simpa [opvTruthy] using hb
      have hbgnil : cssDecl "background-color" (some v) = [] := by
        simp [cssDecl, hpv]
      cases padding with
      | none =>
          simp only [cssPartsSpec, hbgnil, cssDecl_none, List.nil_append, List.append_nil,
            List.append_assoc, List.mem_append] at hmem
          rcases hmem with h1 | h1 | h1 <;>
            (rcases mem_cssDecl h1 with ⟨w, _, _, hx⟩;
             exact append_ne_append (pyStr w) (pyStr v) (by decide) (by decide) hx.symm)
      | some p =>
          simp only [cssPartsSpec, hbgnil, cssDecl_none, List.nil_append, List.append_nil,
            List.append_assoc, List.mem_append] at hmem
          rcases hmem with h1 | h1 | h1 | h1
          · rcases mem_cssDecl h1 with ⟨w, _, _, hx⟩
            exact append_ne_append (pyStr w) (pyStr v) (by decide) (by decide) hx.symm
          · rcases mem_cssDecl h1 with ⟨w, _, _, hx⟩
            exact append_ne_append (pyStr w) (pyStr v) (by decide) (by decide) hx.symm
          · rcases mem_cssDecl h1 with ⟨w, _, _, hx⟩
            exact append_ne_append (pyStr w) (pyStr v) (by decide) (by decide) hx.symm
          · simp only [List.mem_map, List.mem_filter] at h1
            rcases h1 with ⟨side, _, hx⟩
            rw [String.append_assoc, String.append_assoc] at hx
            exact append_ne_append
              (side ++ (":" ++ pyStr ((dget p side).getD (.str "")))) (pyStr v)
              (by decide) (by decide) hx
    · intro hb
      match bg_color, hb with
      | none, hb => simp [opvTruthy] at hb
      | some w, hb =>
          refine ⟨w, rfl, ?_⟩
          have hw : pvTruthy w = true := by simpa [opvTruthy] using hb
          have hkey : ("background-color" : String) ++ ":" = "background-color:" := by decide
          simp [cssPartsSpec, cssDecl, hw, hkey]

/-- C7 counterexample: a group built with the non-null empty-string
`bg_color` carries neither the background-presence class nor any inline
declaration, refuting the claim's "non-null implies both" direction. -/
theorem c7_counterexample :
    (some (PyVal.str "") ≠ (none : Option PyVal)) ∧
    "has-background" ∉ Converter.groupClasses (some (.str "")) none none ∧
    Converter.groupCssParts (some (.str "")) none none none none = [] :=
  ⟨Option.some_ne_none _, by decide, rfl⟩

/-- Inversion of a successful per-section conversion of a cons list. -/
theorem sectionBlocksL_cons_inv {s : Sect} {rest : List Sect} {bs : List String}
    (h : Converter.sectionBlocksL (s :: rest) = .ok bs) :
    ∃ b bs', Converter.convertSection s = .ok b ∧
      Converter.sectionBlocksL rest = .ok bs' ∧ bs = b :: bs' := by
  unfold Converter.sectionBlocksL at h
  cases hc : Converter.convertSection s with
  | error e => rw [hc] at h; cases h
  | ok b =>
      rw [hc] at h
      cases hr : Converter.sectionBlocksL rest with
      | error e => rw [hr] at h; cases h
      | ok bs' =>
          rw [hr] at h
          cases h
          exact ⟨b, bs', rfl, rfl, rfl⟩

/-- The section loop of `convert_layout` produces exactly the
`spacerAssemble` interleaving of the per-section results. -/
theorem convertLayoutAux_assemble : ∀ (ss : List Sect) (bs : List String) (i n : Nat),
    i + ss.length = n → Converter.sectionBlocksL ss = .ok bs →
    Converter.convertLayoutAux ss i n = .ok (spacerAssemble bs) := by
  intro ss
  induction ss with
  | nil =>
      intro bs i n _ h
      unfold Converter.sectionBlocksL at h
      cases h
      rfl
  | cons s rest ih =>
      intro bs i n hi h
      rcases sectionBlocksL_cons_inv h with ⟨b, bs', hc, hr, rfl⟩
      unfold Converter.convertLayoutAux
      rw [hc, ih bs' (i + 1) n (by simp at hi ⊢; omega) hr]
      cases rest with
      | nil =>
          unfold Converter.sectionBlocksL at hr
          cases hr
          have hni : ¬ i < n - 1 := by simp at hi; omega
          by_cases hb : b ≠ "" <;> simp [spacerAssemble, hb, hni]
      | cons r rs =>
          rcases sectionBlocksL_cons_inv hr with ⟨b2, bs2, _, _, rfl⟩
          have hlt : i < n - 1 := by simp at hi; omega
          by_cases hb : b ≠ "" <;> simp [spacerAssemble, hb, hlt]

/-- When the last per-section result is non-empty, the interleaving is the
intersperse of the non-empty results. -/
theorem spacerAssemble_intersperse : ∀ (bs : List String) (b : String),
    bs.getLast? = some b → b ≠ "" →
    spacerAssemble bs =
      List.intersperse (Converter.spacer 30) (bs.filter (fun x => x ≠ "")) := by
  intro bs
  induction bs with
  | nil => intro b h _; cases h
  | cons x rest ih =>
      intro b hlast hb
      cases rest with
      | nil =>
          simp only [List.getLast?_singleton, Option.some_inj] at hlast
          subst hlast
          simp [spacerAssemble, hb]
      | cons y ys =>
          have hlast' : (y :: ys).getLast? = some b := by
            rwa [List.getLast?_cons_cons] at hlast
          have hbmem : b ∈ (y :: ys) := by
            rcases List.mem_getLast?_eq_getLast (x := b) (l := y :: ys)
              (by rw [Option.mem_def]; exact hlast') with ⟨hne, heq⟩
            rw [heq]
            exact List.getLast_mem hne
          have hfil : (y :: ys).filter (fun x => x ≠ "") ≠ [] := by
            apply List.ne_nil_of_mem (a := b)
            rw [List.mem_filter]
            exact ⟨hbmem, by simpa using hb⟩
          rcases List.exists_cons_of_ne_nil hfil with ⟨z, zs, hz⟩
          have ihr := ih b hlast' hb
          conv_lhs => rw [spacerAssemble]
          rw [ihr, hz]
          by_cases hx : x ≠ ""
          · rw [List.filter_cons_of_pos (by simpa using hx), hz,
              List.intersperse_cons_cons]
            simp [hx]
          · have hx' : x = "" := by simpa using hx
            subst hx'
            rw [List.filter_cons_of_neg (by simp), hz]
            simp

/-- C1 amended: when every section converts successfully and the LAST section
of the document produces non-empty output, the compiled block list is the
theme-override block followed by the non-empty section outputs in input
order, with exactly one fixed 30px spacer between adjacent outputs and none
after the last.  (The spacer is keyed to the input index, so the proviso on
the last section is necessary — see the counterexample.) -/
theorem c1_spacer_interleaving (layout : Layout) (bs : List String)
    (hok : Converter.sectionBlocks layout = .ok bs) (b : String)
    (hlast : bs.getLast? = some b) (hb : b ≠ "") :
    Converter.convertLayoutBlocks layout =
      .ok (Converter.themeOverrideCss ::
        List.intersperse (Converter.spacer 30) (bs.filter (fun x => x ≠ ""))) := by
  unfold Converter.convertLayoutBlocks
  rw [convertLayoutAux_assemble layout.sections bs 0 layout.sections.length (by simp)
      (by exact hok)]
  rw [spacerAssemble_intersperse bs b hlast hb]

/-- Witness for C1's amended theorem on a concrete two-section layout. -/
theorem c1_spacer_interleaving_witness :
    Converter.convertLayoutBlocks c1WitnessLayout =
      .ok (Converter.themeOverrideCss ::
        List.intersperse (Converter.spacer 30)
          (((Converter.sectionBlocks c1WitnessLayout).toOption.getD []).filter
            (fun x => x ≠ ""))) :=
  c1_spacer_interleaving c1WitnessLayout
    ((Converter.sectionBlocks c1WitnessLayout).toOption.getD []) rfl
    ((((Converter.sectionBlocks c1WitnessLayout).toOption.getD []).getLast?).getD "")
    rfl (by decide)

/-- C1 counterexample: in a two-section layout whose trailing section
converts to empty output, one unit is emitted (the list is theme-override,
unit, spacer) yet a spacer follows it — the claim's "no spacer after the
last emitted unit" fails. -/
theorem c1_counterexample :
    (Converter.convertLayoutBlocks c1Layout).toOption.map List.length = some 3 ∧
    ((Converter.convertLayoutBlocks c1Layout).toOption.bind List.getLast?) =
      some (Converter.spacer 30) ∧
    ((Converter.sectionBlocks c1Layout).toOption.map
      (fun bs => (bs.filter (fun x => x ≠ "")).length)) = some 1 := by
  exact ⟨rfl, rfl, rfl⟩

/-- C2 evaluation: on a heading/paragraph item with no `text` key the
converter.py item converter raises `KeyError('text')`, while the
page_builder item builder renders the empty string without raising. -/
theorem c2_missing_text_eval :
    Converter.convertContentItem (ContentItem.mk { type := some "heading" } []) =
      .error (.keyError "text") ∧
    Converter.convertContentItem (ContentItem.mk { type := some "paragraph" } []) =
      .error (.keyError "text") ∧
    runPB (PB.buildContentItem [] (ContentItem.mk { type := some "heading" } [])) c2gen 0 =
      .ok ("<!-- wp:kadence/advancedheading \x7b\"uniqueID\":\"_habc123\",\"level\":2\x7d -->\n<h2 class=\"kt-adv-heading_habc123 wp-block-kadence-advancedheading\" data-kb-block=\"kb-adv-heading_habc123\"></h2>\n<!-- /wp:kadence/advancedheading -->", 1) ∧
    runPB (PB.buildContentItem [] (ContentItem.mk { type := some "paragraph" } [])) c2gen 0 =
      .ok ("<!-- wp:paragraph -->\n<p></p>\n<!-- /wp:paragraph -->", 0) :=
  ⟨rfl, rfl, rfl, rfl⟩

/-- C9 counterexample: compiling the same one-heading layout twice through
`build_page_content` (the second call continuing the shared random stream)
yields different output — no identifier can be supplied through the entry
point, and every kadence block mints one. -/
theorem c9_counterexample :
    (runPBOut (PB.buildPageContent c9Layout [] "generic") c9gen 0).toOption ≠
    (runPBOut (PB.buildPageContent c9Layout [] "generic") c9gen 3).toOption := by
  decide

/-- Running a bind on the uid state. -/
theorem runPB_bind {α β : Type} (m : PBM α) (f : α → PBM β) (g : Uids) (k : Nat) :
    runPB (m >>= f) g k = (runPB m g k).bind (fun p => runPB (f p.1) g p.2) := by
  unfold runPB
  cases h : (m.run g).run k <;>
    simp [Bind.bind, ReaderT.bind, ReaderT.run, StateT.bind, Except.bind, StateT.run, h] <;>
    simp [ReaderT.run, StateT.run] at h <;>
    simp [h]

/-- Running a pure value consumes no draws. -/
theorem runPB_pure {α : Type} (a : α) (g : Uids) (k : Nat) :
    runPB (pure a : PBM α) g k = .ok (a, k) := rfl

/-- A caller-supplied truthy unique id suppresses the draw. -/
theorem uidOr_run (u : String) (hu : u ≠ "") (pre : String) (g : Uids) (k : Nat) :
    runPB (KB.uidOr (some u) pre) g k = .ok (u, k) := by
  unfold KB.uidOr
  rw [if_pos (by simp [osTruthy, hu])]
  rfl

/-- A `uidOr >>= pure`-shaped builder with an explicit truthy unique id is
independent of the random stream and of the draw counter. -/
theorem runPBOut_uidOr_bind {β : Type} (u : String) (hu : u ≠ "") (pre : String)
    (f : String → β) (g1 g2 : Uids) (k1 k2 : Nat) :
    runPBOut (KB.uidOr (some u) pre >>= fun x => pure (f x)) g1 k1 =
    runPBOut (KB.uidOr (some u) pre >>= fun x => pure (f x)) g2 k2 := by
  unfold runPBOut
  rw [runPB_bind, runPB_bind, uidOr_run u hu, uidOr_run u hu]
  rfl

/-- C9 amended: every kadence builder given an explicit non-empty
`unique_id` — row layout, column, advanced heading, spacer, image, and a
button group with no buttons — produces output independent of the random
identifier stream and of how many draws have already happened; `adv_btn`
with at least one button (and hence `build_page_content`, which passes no
identifiers at all) is excluded, as the counterexample shows. -/
theorem c9_explicit_uid_determinism (u : String) (hu : u ≠ "") :
    ∀ (g1 g2 : Uids) (k1 k2 : Nat),
      (∀ (inner : List String) (cols : Int) (cl : String) (bg : Option PyVal)
         (bgi : Option String) (oo oc : Option PyVal) (pad mar : Option (List Int))
         (mh : Option Int) (al : Option String) (mw : Option Int) (va : Option String),
        runPBOut (KB.rowLayout inner (some u) cols cl bg bgi oo oc pad mar mh al mw va) g1 k1 =
        runPBOut (KB.rowLayout inner (some u) cols cl bg bgi oo oc pad mar mh al mw va) g2 k2) ∧
      (∀ (inner : List String) (bg : Option PyVal) (pad : Option (List Int))
         (tc : Option PyVal) (ta : Option String),
        runPBOut (KB.kbColumn inner (some u) bg pad tc ta) g1 k1 =
        runPBOut (KB.kbColumn inner (some u) bg pad tc ta) g2 k2) ∧
      (∀ (text : String) (level : Int) (color : Option PyVal) (size : Option Int)
         (al : Option String) (fw lh ls mg pd ff : Option PyVal),
        runPBOut (KB.advHeading text (some u) level color size al fw lh ls mg pd ff) g1 k1 =
        runPBOut (KB.advHeading text (some u) level color size al fw lh ls mg pd ff) g2 k2) ∧
      (∀ (h : Int),
        runPBOut (KB.kbSpacer h (some u)) g1 k1 = runPBOut (KB.kbSpacer h (some u)) g2 k2) ∧
      (∀ (url alt : String) (wp : Option Int) (al : Option String) (mw : Option Int),
        runPBOut (KB.kbImage url (some u) alt wp al mw) g1 k1 =
        runPBOut (KB.kbImage url (some u) alt wp al mw) g2 k2) ∧
      (∀ (al : String),
        runPBOut (KB.advBtn [] (some u) al) g1 k1 =
        runPBOut (KB.advBtn [] (some u) al) g2 k2) := by
  intro g1 g2 k1 k2
  refine ⟨?_, ?_, ?_, ?_, ?_, ?_⟩
  · intro inner cols cl bg bgi oo oc pad mar mh al mw va
    exact runPBOut_uidOr_bind u hu "r" _ g1 g2 k1 k2
  · intro inner bg pad tc ta
    exact runPBOut_uidOr_bind u hu "c" _ g1 g2 k1 k2
  · intro text level color size al fw lh ls mg pd ff
    exact runPBOut_uidOr_bind u hu "h" _ g1 g2 k1 k2
  · intro h
    exact runPBOut_uidOr_bind u hu "s" _ g1 g2 k1 k2
  · intro url alt wp al mw
    exact runPBOut_uidOr_bind u hu "i" _ g1 g2 k1 k2
  · intro al
    unfold KB.advBtn
    simp only [runPBOut, runPB_bind, uidOr_run u hu]
    rfl

/-- Witness for C9's amended theorem: the spacer builder with explicit id
`_x` gives the same output under two unrelated streams and counters. -/
theorem c9_explicit_uid_determinism_witness :
    runPBOut (KB.kbSpacer 40 (some "_x")) c9gen 0 =
    runPBOut (KB.kbSpacer 40 (some "_x")) (fun _ => "zzzzzz") 5 :=
  (c9_explicit_uid_determinism "_x" (by decide) c9gen (fun _ => "zzzzzz") 0 5).2.2.2.1 40
